import Mathlib

/-!
Shallow embedding of `src/source/lockfile.py` (the Lock-File repository).

The module defines one class, `LockFile`, whose methods branch on
`sys.platform`.  We model the two branches with an explicit `Platform`
parameter (`win32` for the Windows branch, `posix` for the `else` branch,
i.e. Linux/macOS with `fcntl.flock`).

Python mutable object state is modelled by explicit state passing: every
method takes and returns a `World` (the file system plus the advisory-lock
table) and a `LockFileState` (the object's fields), together with an
`Except Err α` for the value returned or the exception raised.  Python
exception semantics are preserved: all field mutations performed before the
raise point are visible in the returned state.

Data is modelled at the code-unit level (`List Nat`): text encoding/decoding
(UTF-8 with the ISO-8859-1 fallback) is treated as the identity on unit
sequences, so a text file's contents and a binary file's contents are both
unit lists, and `PyData` keeps the Python `str` / `bytes` type tag used by
the `type(data)` checks.
-/

/-- The two `sys.platform` branches of the source file. -/
inductive Platform
  | win32
  | posix
deriving DecidableEq, Repr

/-- Python values storable in `self._filename` / `self._mode` / `encoding`:
`int` (Windows access-mode constants), `str`, or `bytes` (`Close` sets
`self._filename = b""`).  Python `==` between different types is `False`,
which structural equality on this type reproduces. -/
inductive PyVal
  | int (i : Int)
  | str (s : String)
  | bytes (bs : List Nat)
deriving DecidableEq, Repr

/-- Data passed to `Write` / returned by `Read`: a Python `str` or `bytes`
value, both carrying their code units. -/
inductive PyData
  | str (units : List Nat)
  | bytes (units : List Nat)
deriving DecidableEq, Repr

/-- The value of `self.__file`: `None`, a POSIX `IOBase` object (from
`open(...)`, carrying its path, the mode string it was opened with, its
cursor, and whether its `flock` succeeded), or a Windows `HANDLE` (carrying
validity — `CreateFileW` returns `INVALID_HANDLE_VALUE` on failure but the
result is still a `HANDLE` instance — plus path and cursor). -/
inductive PFile
  | none
  | iobase (path : String) (pymode : String) (pos : Nat) (lockHeld : Bool)
  | handle (valid : Bool) (path : String) (pos : Nat)
deriving DecidableEq, Repr

/-- The environment the native calls act on: the file system (a shadowing
association list, most recent binding first), the set of paths currently
holding an exclusive lock (fcntl `flock` / CreateFile share-mode-0), an
optional injected failure for the native `open` call (modelling an I/O
error: when `some msg`, `open(...)` raises `OSError(msg)`), and the message
the OS reports for a failed lock acquisition. -/
structure World where
  files : List (String × List Nat)
  locked : List String
  openFailure : Option String
  nativeErrMsg : String
deriving DecidableEq, Repr

/-- Exceptions raised by the source (each constructor is the Python
exception class; the string distinguishes the message). -/
inductive Err
  | unsupportedOperation (msg : String)
  | typeError (msg : String)
  | valueError (msg : String)
  | fileNotFoundError (msg : String)
  | osError (msg : String)
  | attributeError
deriving DecidableEq, Repr

/-- Decidable equality on `Except` results, so concrete runs can be settled
by `decide`. -/
instance instDecEqExcept {ε α : Type} [DecidableEq ε] [DecidableEq α] :
    DecidableEq (Except ε α) := fun x y =>
  match x, y with
  | Except.ok a, Except.ok b =>
    if h : a = b then isTrue (by rw [h])
    else isFalse (fun hc => h (Except.ok.inj hc))
  | Except.error a, Except.error b =>
    if h : a = b then isTrue (by rw [h])
    else isFalse (fun hc => h (Except.error.inj hc))
  | Except.ok _, Except.error _ => isFalse (fun hc => Except.noConfusion hc)
  | Except.error _, Except.ok _ => isFalse (fun hc => Except.noConfusion hc)

/-- The fields of a `LockFile` object: `self._filename`, `self._mode`,
`self.__file`, `self.__binary`. -/
structure LockFileState where
  filename : PyVal
  mode : Option PyVal
  file : PFile
  binary : Bool
deriving DecidableEq, Repr

/-- The field values set at the top of `__init__`:
`self._filename = ""`, `self._mode = None`, `self.__file = None`,
`self.__binary = False`. -/
def LockFileState.init : LockFileState :=
  ⟨PyVal.str "", Option.none, PFile.none, false⟩

/-- `WRITEMODE`: `1073741824` (`GENERIC_WRITE`) on Windows, `"w"` elsewhere. -/
def WRITEMODE : Platform → PyVal
  | Platform.win32 => PyVal.int 1073741824
  | Platform.posix => PyVal.str "w"

/-- `READMODE`: `-2147483648` (`GENERIC_READ`) on Windows, `"r"` elsewhere. -/
def READMODE : Platform → PyVal
  | Platform.win32 => PyVal.int (-2147483648)
  | Platform.posix => PyVal.str "r"

/-- `APPENDMODE`: `WRITEMODE` on Windows, `"a"` elsewhere. -/
def APPENDMODE : Platform → PyVal
  | Platform.win32 => WRITEMODE Platform.win32
  | Platform.posix => PyVal.str "a"

/-- `WRITEANDREADMODE`: `WRITEMODE | READMODE` on Windows — Python bitwise
or on arbitrary-precision two's-complement integers, so
`1073741824 | -2147483648 = -(2^31) + 2^30 = -1073741824` — and `"r+"`
elsewhere. -/
def WRITEANDREADMODE : Platform → PyVal
  | Platform.win32 => PyVal.int (-1073741824)
  | Platform.posix => PyVal.str "r+"

/-- `MAXDATAPERITE = 100000`: maximum bytes per native Windows transfer call. -/
def MAXDATAPERITE : Nat := 100000

/-- `self.__modes = ('w', 'r', 'a', 'rw', 'wb', 'rb', 'ab', 'rwb')`. -/
def LockFile.modes : List String :=
  ["w", "r", "a", "rw", "wb", "rb", "ab", "rwb"]

/-- `os.path.sep` on each platform. -/
def pathSep : Platform → String
  | Platform.win32 => "\\"
  | Platform.posix => "/"

/-- Length of the drive prefix `os.path.splitdrive(filename)[0]` — modelled
for the drive-letter case (`"C:..."` gives 2, otherwise 0; UNC paths are not
exercised by this repository's callers). -/
def splitdriveLen (f : List Char) : Nat :=
  if f.length ≥ 2 ∧ f.get? 1 = some ':' then 2 else 0

/-- The reserved device-name prefixes checked on Windows. -/
def reservedNames : List String :=
  ["CON", "PRN", "AUX", "CLOCK$", "NUL", "COM0", "COM1", "COM2",
   "COM3", "COM4", "COM5", "COM6", "COM7", "COM8", "COM9", "LPT0",
   "LPT1", "LPT2", "LPT3", "LPT4", "LPT5", "LPT6", "LPT7", "LPT8",
   "LPT9"]

/-- `filename.split(sep)` on a character list (every separator produces a
component, as Python's `str.split` with an explicit separator does). -/
def splitOnSep (sep : Char) : List Char → List (List Char)
  | [] => [[]]
  | c :: rest =>
    let r := splitOnSep sep rest
    if c = sep then [] :: r
    else (c :: r.head?.getD []) :: r.tail

/-- `part.upper().startswith(name)`. -/
def upperStartsWith (part : List Char) (name : String) : Bool :=
  name.toList.isPrefixOf (part.map Char.toUpper)

/-- `_ValidateFileName`: rejects control characters (code points 0–31) on
every platform; on Windows additionally rejects paths one of whose
components uppercased starts with a reserved device name, then strips the
drive prefix (the source drops `len(drive)+1` characters) and rejects
components containing any of `< > : " / | ? *`. -/
def _ValidateFileName (plat : Platform) (filename : String) : Bool :=
  if (List.range 32).any (fun c => filename.toList.contains (Char.ofNat c)) then
    false
  else if plat = Platform.posix then
    true
  else if reservedNames.any (fun name =>
      (splitOnSep '\\' filename.toList).any
        (fun part => upperStartsWith part name)) then
    false
  else
    let f0 := filename.toList
    let f := if splitdriveLen f0 ≠ 0 then f0.drop (splitdriveLen f0 + 1) else f0
    let parts := splitOnSep '\\' f
    if ['<', '>', ':', '"', '/', '|', '?', '*'].any (fun c =>
        parts.any (fun part => c ∈ part)) then
      false
    else
      true

/-- `self._HaveFileOpen` succeeds (does not raise) iff `self.__file` is a
`HANDLE` instance on Windows / an `IOBase` instance elsewhere. -/
def LockFile.haveFileOpen (plat : Platform) (st : LockFileState) : Bool :=
  match plat, st.file with
  | Platform.win32, PFile.handle _ _ _ => true
  | Platform.posix, PFile.iobase _ _ _ _ => true
  | _, _ => false

/-- The message of the `UnsupportedOperation` raised by `_HaveFileOpen`. -/
def notOpenMsg : String :=
  "The action cannot be performed until a file is opened."

/-- `IsWriteable`: `self._mode != READMODE` (Python `!=` across types is
`True`, matching structural inequality on `Option PyVal`). -/
def LockFile.IsWriteable (plat : Platform) (st : LockFileState) : Bool :=
  st.mode ≠ some (READMODE plat)

/-- `IsReadable`: `self._mode != WRITEMODE`. -/
def LockFile.IsReadable (plat : Platform) (st : LockFileState) : Bool :=
  st.mode ≠ some (WRITEMODE plat)

/-- `IsBinary`: `self.__binary`. -/
def LockFile.IsBinary (st : LockFileState) : Bool :=
  st.binary

/-- Contents of the file at `path`, `[]` when absent (used where the source
reads through an already-validated handle). -/
def World.contentsOf (w : World) (path : String) : List Nat :=
  ((w.files.lookup path).getD [])

/-- `os.path.exists`. -/
def World.pathExists (w : World) (path : String) : Bool :=
  (w.files.lookup path).isSome

/-- Writing `contents` at `path` (shadowing association-list update). -/
def World.setFile (w : World) (path : String) (contents : List Nat) : World :=
  { w with files := (path, contents) :: w.files }

/-- `LARGE_INTEGER` is 8 bytes, so `LARGE_INTEGER_size = 2 ** 64` in `Seek`
and the maximum representable native file position is
`LARGE_INTEGER_size // 2 - 1 = 2^63 - 1`. -/
def LARGE_INTEGER_size : Int := 2 ^ 64

/-- `self.__Seek(offset, startpoint)` (Windows only): `SetFilePointerEx` on
the raw handle; `startpoint` is `FILE_BEGIN = 0` / `FILE_CURRENT = 1` /
`FILE_END = 2`.  The native call fails — and the method raises
`OSError(_GetMessageError())` — when the handle is not a valid open handle
or the resulting position is not representable as a non-negative signed
64-bit `LARGE_INTEGER`. -/
def LockFile.privSeek (w : World) (st : LockFileState) (offset : Int)
    (startpoint : Nat) : World × LockFileState × Except Err Int :=
  match st.file with
  | PFile.handle true path pos =>
    let target : Int :=
      if startpoint = 0 then offset
      else if startpoint = 1 then (pos : Int) + offset
      else ((w.contentsOf path).length : Int) + offset
    if target < 0 ∨ target > LARGE_INTEGER_size / 2 - 1 then
      (w, st, Except.error (Err.osError w.nativeErrMsg))
    else
      (w, { st with file := PFile.handle true path target.toNat },
        Except.ok target)
  | _ => (w, st, Except.error (Err.osError w.nativeErrMsg))

/-- `GetFileSize()`: requires `_HaveFileOpen`; `GetFileSizeEx` on the handle
on Windows (fails on an invalid handle), `os.path.getsize(self._filename)`
elsewhere (raises `FileNotFoundError` when the path does not exist). -/
def LockFile.GetFileSize (plat : Platform) (w : World) (st : LockFileState) :
    World × LockFileState × Except Err Int :=
  if ¬ LockFile.haveFileOpen plat st then
    (w, st, Except.error (Err.unsupportedOperation notOpenMsg))
  else
    match plat with
    | Platform.win32 =>
      match st.file with
      | PFile.handle true path _ =>
        (w, st, Except.ok ((w.contentsOf path).length : Int))
      | _ => (w, st, Except.error (Err.osError w.nativeErrMsg))
    | Platform.posix =>
      match st.filename with
      | PyVal.str s =>
        match w.files.lookup s with
        | some c => (w, st, Except.ok (c.length : Int))
        | Option.none => (w, st, Except.error (Err.fileNotFoundError s))
      | _ => (w, st, Except.error (Err.fileNotFoundError ""))

/-- `GetCursorPos()`: `self.__Seek(0, 1)` on Windows, `self.__file.tell()`
elsewhere.  The source performs no `_HaveFileOpen` check here, so on a
closed handle the POSIX branch evaluates `None.tell()` (an
`AttributeError`) and the Windows branch calls `SetFilePointerEx` on `None`
(an `OSError`). -/
def LockFile.GetCursorPos (plat : Platform) (w : World) (st : LockFileState) :
    World × LockFileState × Except Err Int :=
  match plat with
  | Platform.win32 => LockFile.privSeek w st 0 1
  | Platform.posix =>
    match st.file with
    | PFile.iobase _ _ pos _ => (w, st, Except.ok (pos : Int))
    | _ => (w, st, Except.error Err.attributeError)

/-- `self.__file.seek(target)` for a POSIX `IOBase` (absolute positioning,
always succeeds in the native model). -/
def posixSeekTo (st : LockFileState) (target : Nat) : LockFileState :=
  match st.file with
  | PFile.iobase p m _ l => { st with file := PFile.iobase p m target l }
  | _ => st

/-- The `startpoint == "current"` body of the POSIX `Seek` branch; it is
also the target of the source's recursive `self.Seek(offset, "current")`
calls from the `begin` and `end` anchors (re-entered after `_HaveFileOpen`
has already succeeded on the same state). -/
def LockFile.posixSeekCurrent (w : World) (st : LockFileState) (offset : Int) :
    World × LockFileState × Except Err Int :=
  match st.file with
  | PFile.iobase p m pos l =>
    let last : Int := (pos : Int)
    if offset < 0 ∧ last + offset < 0 then
      (w, { st with file := PFile.iobase p m 0 l }, Except.ok 0)
    else if offset < 0 then
      (w, { st with file := PFile.iobase p m (last + offset).toNat l },
        Except.ok (last + offset))
    else if offset = 0 then
      (w, st, Except.ok last)
    else
      (w, { st with file := PFile.iobase p m (last + offset).toNat l },
        Except.ok (last + offset))
  | _ => (w, st, Except.error Err.attributeError)

/-- `self.Seek(offset, "current")` on Windows after `_HaveFileOpen` — the
target of the recursive call issued by the negative-offset `end` anchor:
it recomputes `last_offset = self.__Seek(0, 1)`, applies the lower and
upper offset clamps, and issues `self.__Seek(offset, 1)`. -/
def LockFile.winSeekCurrent (w : World) (st : LockFileState) (offset : Int) :
    World × LockFileState × Except Err Int :=
  match LockFile.privSeek w st 0 1 with
  | (w1, st1, Except.error e) => (w1, st1, Except.error e)
  | (w1, st1, Except.ok last) =>
    let offset' :=
      if offset < 0 ∧ last + offset < 0 then -last
      else if offset > LARGE_INTEGER_size / 2 - 1 + last then
        LARGE_INTEGER_size / 2 - 1 - last
      else offset
    LockFile.privSeek w1 st1 offset' 1

/-- The message of the `ValueError` raised for an unknown anchor. -/
def invalidAnchorMsg : String :=
  "Invalid value, only begin, current and end are accepted."

/-- `Seek(offset, startpoint)`: `_HaveFileOpen`, then the per-platform
anchor normalization of lines 371–418 (`offset` is an integer by type, so
the `type(offset) != int` check cannot fire). -/
def LockFile.Seek (plat : Platform) (w : World) (st : LockFileState)
    (offset : Int) (startpoint : String) :
    World × LockFileState × Except Err Int :=
  if ¬ LockFile.haveFileOpen plat st then
    (w, st, Except.error (Err.unsupportedOperation notOpenMsg))
  else
    match plat with
    | Platform.win32 =>
      match LockFile.privSeek w st 0 1 with
      | (w1, st1, Except.error e) => (w1, st1, Except.error e)
      | (w1, st1, Except.ok last) =>
        if offset < 0 ∧ startpoint = "begin" then
          LockFile.privSeek w1 st1 0 0
        else if offset < 0 ∧ startpoint = "end" then
          match LockFile.privSeek w1 st1 0 2 with
          | (w2, st2, Except.error e) => (w2, st2, Except.error e)
          | (w2, st2, Except.ok _) => LockFile.winSeekCurrent w2 st2 offset
        else
          let offset' :=
            if offset < 0 ∧ last + offset < 0 then -last
            else if offset > LARGE_INTEGER_size / 2 - 1 + last then
              LARGE_INTEGER_size / 2 - 1 - last
            else offset
          if startpoint = "begin" then LockFile.privSeek w1 st1 offset' 0
          else if startpoint = "current" then LockFile.privSeek w1 st1 offset' 1
          else if startpoint = "end" then LockFile.privSeek w1 st1 offset' 2
          else (w1, st1, Except.error (Err.valueError invalidAnchorMsg))
    | Platform.posix =>
      if startpoint = "begin" then
        LockFile.posixSeekCurrent w (posixSeekTo st 0) offset
      else if startpoint = "current" then
        LockFile.posixSeekCurrent w st offset
      else if startpoint = "end" then
        match LockFile.GetFileSize Platform.posix w st with
        | (w1, st1, Except.error e) => (w1, st1, Except.error e)
        | (w1, st1, Except.ok size) =>
          LockFile.posixSeekCurrent w1 (posixSeekTo st1 size.toNat) offset
      else
        (w, st, Except.error (Err.valueError invalidAnchorMsg))

/-- `Seek2(pos)`: `return self.Seek(pos, "begin")`. -/
def LockFile.Seek2 (plat : Platform) (w : World) (st : LockFileState)
    (pos : Int) : World × LockFileState × Except Err Int :=
  LockFile.Seek plat w st pos "begin"

/-- `Close()`: `CloseHandle` / `IOBase.close` when a native resource is
held (releasing its exclusive lock), then unconditionally
`self._filename = b""`, `self._mode = None`, `self.__file = None`,
`self.__binary = False`.  Total — it raises nothing. -/
def LockFile.Close (plat : Platform) (w : World) (st : LockFileState) :
    World × LockFileState :=
  let w' :=
    match plat, st.file with
    | Platform.win32, PFile.handle true p _ =>
      { w with locked := w.locked.erase p }
    | Platform.posix, PFile.iobase p _ _ true =>
      { w with locked := w.locked.erase p }
    | _, _ => w
  (w', ⟨PyVal.bytes [], Option.none, PFile.none, false⟩)

/-- `Write(data)` — the POSIX branch (`self.__file.write(data)`; the
Windows branch performs the same logical write through `WriteFile` chunks
of at most `MAXDATAPERITE` bytes).  A stream opened with an `a` mode
carries `O_APPEND`, so its writes land at end-of-file regardless of the
current cursor, leaving the cursor at the new end; any other stream writes
at the cursor, zero-filling the gap first when the cursor has been seeked
beyond end-of-file. -/
def LockFile.Write (w : World) (st : LockFileState) (data : PyData) :
    World × LockFileState × Except Err Unit :=
  if ¬ LockFile.haveFileOpen Platform.posix st then
    (w, st, Except.error (Err.unsupportedOperation notOpenMsg))
  else if st.binary && !(match data with | PyData.bytes _ => true | _ => false) then
    (w, st, Except.error (Err.typeError "Only byte literals can be written."))
  else if !st.binary && !(match data with | PyData.str _ => true | _ => false) then
    (w, st, Except.error (Err.typeError "Only string literals can be written."))
  else if st.mode = some (READMODE Platform.posix) then
    (w, st, Except.error
      (Err.unsupportedOperation "The file was not opened in write mode."))
  else
    match st.file with
    | PFile.iobase p m pos l =>
      let payload := match data with | PyData.str u => u | PyData.bytes u => u
      let c := w.contentsOf p
      if ("a".toList).isPrefixOf m.toList then
        (World.setFile w p (c ++ payload),
         { st with file := PFile.iobase p m (c.length + payload.length) l },
         Except.ok ())
      else
        let c' := c.take pos ++ List.replicate (pos - c.length) 0 ++ payload
                    ++ c.drop (pos + payload.length)
        (World.setFile w p c',
         { st with file := PFile.iobase p m (pos + payload.length) l },
         Except.ok ())
    | _ => (w, st, Except.error Err.attributeError)

/-- The platform-independent length-clamping cascade at the top of `Read`
(lines 309–316).  `pos` is `self.Seek(0)` — a pure current-position query —
and `size` is `self.GetFileSize()`; the source repeats both calls, which
are pure, so they are evaluated once here. -/
def readClamp (pos size n_chars : Int) : Int :=
  if pos ≥ size then 0
  else if size - pos + n_chars + 1 < 0 then 0
  else if n_chars < 0 then size - pos + (n_chars + 1)
  else if pos + n_chars > size then size - pos
  else n_chars

/-- Universal-newline translation performed by a text-mode read: the POSIX
`open` call passes no `newline=` argument, so `TextIOWrapper` reads with
`newline=None`, turning `\r\n` and a lone `\r` into `\n`.  The flag records
whether the previous unit was a `\r` (code 13), whose paired `\n` (code 10)
must then be dropped. -/
def univNewlinesGo : Bool → List Nat → List Nat
  | _, [] => []
  | prevCR, u :: rest =>
    if u = 13 then 10 :: univNewlinesGo true rest
    else if u = 10 then
      (if prevCR then [] else [10]) ++ univNewlinesGo false rest
    else u :: univNewlinesGo false rest

/-- The translation applied to one read's data (each read starts with no
pending `\r`; a `\r\n` pair split across two successive reads — decoder
state carried between calls — is not exercised by any claim). -/
def univNewlines (u : List Nat) : List Nat :=
  univNewlinesGo false u

/-- `Read(n_chars)` — the POSIX branch (`self.__file.read(n)`; the Windows
branch performs the same logical read through `ReadFile` chunks).
`n_chars` is an integer by type, so the `type(n_chars) != int` check cannot
fire.  The `self._mode == WRITEMODE` guard only catches `"w"`, so an
append-mode handle (stored mode `"a"`) reaches the native call, where the
write-only stream's `read()` raises `io.UnsupportedOperation: not
readable`; a readable stream (open mode starting with `r`) returns the
data, with universal-newline translation in text mode.  Sizes and cursor
positions are kept in on-disk units, as in the source's clamp arithmetic
(`GetFileSize`/`Seek(0)`). -/
def LockFile.Read (w : World) (st : LockFileState) (n_chars : Int) :
    World × LockFileState × Except Err PyData :=
  if ¬ LockFile.haveFileOpen Platform.posix st then
    (w, st, Except.error (Err.unsupportedOperation notOpenMsg))
  else if st.mode = some (WRITEMODE Platform.posix) then
    (w, st, Except.error
      (Err.unsupportedOperation "The file was not opened in read mode."))
  else
    match LockFile.GetFileSize Platform.posix w st with
    | (w1, st1, Except.error e) => (w1, st1, Except.error e)
    | (w1, st1, Except.ok size) =>
      match st1.file with
      | PFile.iobase p m pos l =>
        if ("r".toList).isPrefixOf m.toList then
          let n := readClamp (pos : Int) size n_chars
          let out := ((w1.contentsOf p).drop pos).take n.toNat
          (w1, { st1 with file := PFile.iobase p m (pos + out.length) l },
           Except.ok (if st1.binary then PyData.bytes out
             else PyData.str (univNewlines out)))
        else
          (w1, st1, Except.error (Err.unsupportedOperation "not readable"))
      | _ => (w1, st1, Except.error Err.attributeError)

/-- The native acquisition of the POSIX branch of `Open` (lines 238–244):
`open(filename, self._mode[, encoding])` followed by
`flock(self.__file, LOCK_EX | LOCK_NB)` and the trailing
`self._mode = self._mode.replace("b", "")`.  When `flock` fails the opened
file object remains bound to `self.__file` (the assignment on line 238 has
already happened) and `self._mode` still carries its `"b"` suffix. -/
def LockFile.posixNativeOpen (w : World) (st : LockFileState) (fn : String)
    (pymode : String) : World × LockFileState × Except Err Unit :=
  match w.openFailure with
  | some msg => (w, st, Except.error (Err.osError msg))
  | Option.none =>
    let opened : Option (World × Nat) :=
      if ("r+".toList).isPrefixOf pymode.toList then
        match w.files.lookup fn with
        | some _ => some (w, 0)
        | Option.none => Option.none
      else if ("w".toList).isPrefixOf pymode.toList then
        some (World.setFile w fn [], 0)
      else if ("r".toList).isPrefixOf pymode.toList then
        match w.files.lookup fn with
        | some _ => some (w, 0)
        | Option.none => Option.none
      else
        -- append: create when absent, cursor at end-of-file
        match w.files.lookup fn with
        | some c => some (w, c.length)
        | Option.none => some (World.setFile w fn [], 0)
    match opened with
    | Option.none => (w, st, Except.error (Err.fileNotFoundError fn))
    | some (w1, pos) =>
      if w1.locked.contains fn then
        -- flock raises OSError; self.__file stays bound, the lock is not held
        (w1,
         { st with file := PFile.iobase fn pymode pos false },
         Except.error (Err.osError w1.nativeErrMsg))
      else
        ({ w1 with locked := fn :: w1.locked },
         { st with
            file := PFile.iobase fn pymode pos true,
            mode := some (PyVal.str (String.mk (pymode.toList.filter (· ≠ 'b')))) },
         Except.ok ())

/-- The tail of `Open` once the mode token has been resolved (lines
211–244): the binary-mode enabling block, then the per-platform native
acquisition.  `modeVal` is the value assigned to `self._mode` by the
resolution branch and `createdisposition` the Windows disposition computed
there (unused on POSIX). -/
def LockFile.openAcquire (plat : Platform) (w : World) (st : LockFileState)
    (fn : String) (m : String) (modeVal : PyVal) (createdisposition : Nat)
    (encoding : Option PyVal) : World × LockFileState × Except Err Unit :=
  let isB := m.toList.getLast? = some 'b'
  let modeVal :=
    if plat = Platform.posix ∧ isB then
      match modeVal with
      | PyVal.str s => PyVal.str (s ++ "b")
      | v => v
    else modeVal
  let st := { st with
    mode := some modeVal,
    binary := if isB then true else st.binary }
  match plat with
  | Platform.win32 =>
    -- self.__file = HANDLE(_CreateFile(self._filename, self._mode, 0, None,
    --                                  createdisposition, 128, None))
    let acquired : World × LockFileState :=
      if w.locked.contains fn then
        -- sharing violation: CreateFileW returns INVALID_HANDLE_VALUE
        (w, { st with file := PFile.handle false fn 0 })
      else if createdisposition = 2 then
        (World.setFile { w with locked := fn :: w.locked } fn [],
         { st with file := PFile.handle true fn 0 })
      else
        match w.files.lookup fn with
        | some _ =>
          ({ w with locked := fn :: w.locked },
           { st with file := PFile.handle true fn 0 })
        | Option.none => (w, { st with file := PFile.handle false fn 0 })
    -- `if self.__file == 4294967295: raise OSError(...)` can never fire: the
    -- left side is a ctypes HANDLE instance and cdata objects have no value
    -- equality with ints, so the comparison is always False.
    if m = "a" then
      match LockFile.Seek Platform.win32 acquired.1 acquired.2 0 "end" with
      | (w2, st2, Except.error e) => (w2, st2, Except.error e)
      | (w2, st2, Except.ok _) => (w2, st2, Except.ok ())
    else (acquired.1, acquired.2, Except.ok ())
  | Platform.posix =>
    let encOk : Bool :=
      match encoding with
      | Option.none => true
      | some (PyVal.str _) => true
      | some _ => false
    if ¬ encOk then
      (w, st, Except.error (Err.typeError "The encoding argument must be a string."))
    else
      let pymode := match st.mode with | some (PyVal.str s) => s | _ => ""
      -- if self._mode.startswith("r+") and not exists(filename):
      --     open(filename, "w").close()
      -- (when the native open is failing, that call raises first, with the
      -- same observable error, state and world as the main open raising)
      let w :=
        if ("r+".toList).isPrefixOf pymode.toList ∧ ¬ w.pathExists fn
            ∧ w.openFailure = Option.none then
          World.setFile w fn []
        else w
      LockFile.posixNativeOpen w st fn pymode

/-- The message of the `ValueError` raised for an unrecognized mode token
(the source interpolates the token into the message). -/
def invalidModeMsg : String :=
  "The mode is invalid. Valid modes: w, r, a, rw, wb, rb, ab and rwb"

/-- `Open(filename, mode, encoding=None)` (lines 132–244).  Field mutations
performed before a raise persist in the returned state, matching Python
exception semantics.  `filename = Option.none` models passing `None` (any
non-`str` value takes the same `TypeError` path). -/
def LockFile.Open (plat : Platform) (w : World) (st : LockFileState)
    (filename : Option String) (mode : Option String)
    (encoding : Option PyVal) : World × LockFileState × Except Err Unit :=
  let alreadyOpen :=
    match plat, st.file with
    | Platform.win32, PFile.handle _ _ _ => st.filename != PyVal.str ""
    | Platform.posix, PFile.iobase _ _ _ _ => st.filename != PyVal.str ""
    | _, _ => false
  if alreadyOpen then
    (w, st, Except.error
      (Err.unsupportedOperation "Close the file first before opening another one."))
  else
    match filename with
    | Option.none =>
      (w, st, Except.error (Err.typeError "Only str and bytes data types are accepted."))
    | some fn =>
      if ¬ _ValidateFileName plat fn then
        (w, st, Except.error
          (Err.valueError "The file name has characters that are not allowed."))
      else
        let st := { st with filename := PyVal.str fn }
        match mode with
        | Option.none => (w, st, Except.error (Err.valueError invalidModeMsg))
        | some m =>
          if ¬ LockFile.modes.contains m then
            (w, st, Except.error (Err.valueError invalidModeMsg))
          else if ("rw".toList).isPrefixOf m.toList then
            LockFile.openAcquire plat w st fn m (WRITEANDREADMODE plat)
              (if ¬ w.pathExists fn then 2 else 3) encoding
          else if ("w".toList).isPrefixOf m.toList then
            LockFile.openAcquire plat w st fn m (WRITEMODE plat) 2 encoding
          else if ("r".toList).isPrefixOf m.toList then
            if ¬ w.pathExists fn then
              (w, st, Except.error (Err.fileNotFoundError fn))
            else
              LockFile.openAcquire plat w st fn m (READMODE plat) 3 encoding
          else if ("a".toList).isPrefixOf m.toList then
            LockFile.openAcquire plat w st fn m (APPENDMODE plat)
              (if ¬ w.pathExists fn then 2 else 3) encoding
          else
            -- unreachable for the eight recognized tokens: the source would
            -- fall through with `self._mode`/`createdisposition` unbound
            (w, st, Except.error (Err.typeError "unbound local"))

/-- `__init__(filename=None, mode=None, encoding=None)`: sets the default
fields, then immediately calls `Open` when either of `filename` / `mode`
was provided. -/
def LockFile.new (plat : Platform) (w : World) (filename : Option String)
    (mode : Option String) (encoding : Option PyVal) :
    World × LockFileState × Except Err Unit :=
  if filename ≠ Option.none ∨ mode ≠ Option.none then
    LockFile.Open plat w LockFileState.init filename mode encoding
  else
    (w, LockFileState.init, Except.ok ())

/-- The module-level `Open(filename, mode, encoding=None)` function:
`return LockFile(filename, mode, encoding)`. -/
def Open (plat : Platform) (w : World) (filename : Option String)
    (mode : Option String) (encoding : Option PyVal) :
    World × LockFileState × Except Err Unit :=
  LockFile.new plat w filename mode encoding

/-- The round-trip scenario of claim C2 on the POSIX branch: open a fresh
handle on `path` in `wmode`, `Write(data)`, `Close()`, reopen in `rmode`,
`Read(-1)`; any raise aborts the scenario with that error. -/
def roundTrip (w : World) (path : String) (wmode rmode : String)
    (data : PyData) : Except Err PyData :=
  match LockFile.Open Platform.posix w LockFileState.init (some path)
      (some wmode) Option.none with
  | (_, _, Except.error e) => Except.error e
  | (w1, st1, Except.ok _) =>
    match LockFile.Write w1 st1 data with
    | (_, _, Except.error e) => Except.error e
    | (w2, st2, Except.ok _) =>
      match LockFile.Close Platform.posix w2 st2 with
      | (w3, st3) =>
        match LockFile.Open Platform.posix w3 st3 (some path) (some rmode)
            Option.none with
        | (_, _, Except.error e) => Except.error e
        | (w4, st4, Except.ok _) =>
          (LockFile.Read w4 st4 (-1)).2.2

/-- The invariant of claim C9: `self._mode` is non-`None` iff
`self.__file` is non-`None`. -/
def LockFileState.inv (st : LockFileState) : Prop :=
  st.mode ≠ Option.none ↔ st.file ≠ PFile.none

example : LockFileState.init.file = PFile.none := rfl
example : WRITEANDREADMODE Platform.win32 = PyVal.int (-1073741824) := by decide
example : _ValidateFileName Platform.posix "t.txt" = true := by decide
example : _ValidateFileName Platform.win32 "t.bin" = true := by decide
example : _ValidateFileName Platform.posix "a\x00b" = false := by decide
example : _ValidateFileName Platform.win32 "con.txt" = false := by decide
example : _ValidateFileName Platform.win32 "t?x" = false := by decide

/-! Helper evaluation lemmas: the result of a successful (or lock-blocked)
`Open` on a fresh handle, one lemma per mode token and platform.  Shared by
the claim theorems below. -/

theorem posixOpen_w_eval (w : World) (st : LockFileState) (p : String)
    (hfile : st.file = PFile.none) (hbin : st.binary = false)
    (hv : _ValidateFileName Platform.posix p = true)
    (hnl : p ∉ w.locked) (hof : w.openFailure = Option.none) :
    LockFile.Open Platform.posix w st (some p) (some "w")
        Option.none =
      (⟨(p, []) :: w.files, p :: w.locked, Option.none, w.nativeErrMsg⟩,
       ⟨PyVal.str p, some (PyVal.str "w"), PFile.iobase p "w" 0 true, false⟩,
       Except.ok ()) := by
  rcases st with ⟨fn0, md0, fl0, b0⟩
  simp only at hfile hbin
  subst hfile
  subst hbin
  simp +decide [LockFile.Open, LockFile.openAcquire, LockFile.posixNativeOpen,
    LockFile.modes, hv, hnl, hof, World.setFile, World.pathExists,
    LockFileState.init, WRITEMODE]

theorem posixOpen_wb_eval (w : World) (st : LockFileState) (p : String)
    (hfile : st.file = PFile.none) (hbin : st.binary = false)
    (hv : _ValidateFileName Platform.posix p = true)
    (hnl : p ∉ w.locked) (hof : w.openFailure = Option.none) :
    LockFile.Open Platform.posix w st (some p) (some "wb")
        Option.none =
      (⟨(p, []) :: w.files, p :: w.locked, Option.none, w.nativeErrMsg⟩,
       ⟨PyVal.str p, some (PyVal.str "w"), PFile.iobase p "wb" 0 true, true⟩,
       Except.ok ()) := by
  rcases st with ⟨fn0, md0, fl0, b0⟩
  simp only at hfile hbin
  subst hfile
  subst hbin
  simp +decide [LockFile.Open, LockFile.openAcquire, LockFile.posixNativeOpen,
    LockFile.modes, hv, hnl, hof, World.setFile, World.pathExists,
    LockFileState.init, WRITEMODE]

theorem posixOpen_r_eval (w : World) (st : LockFileState) (p : String)
    (c : List Nat)
    (hfile : st.file = PFile.none) (hbin : st.binary = false)
    (hv : _ValidateFileName Platform.posix p = true)
    (hex : w.files.lookup p = some c)
    (hnl : p ∉ w.locked) (hof : w.openFailure = Option.none) :
    LockFile.Open Platform.posix w st (some p) (some "r")
        Option.none =
      (⟨w.files, p :: w.locked, Option.none, w.nativeErrMsg⟩,
       ⟨PyVal.str p, some (PyVal.str "r"), PFile.iobase p "r" 0 true, false⟩,
       Except.ok ()) := by
  rcases st with ⟨fn0, md0, fl0, b0⟩
  simp only at hfile hbin
  subst hfile
  subst hbin
  simp +decide [LockFile.Open, LockFile.openAcquire, LockFile.posixNativeOpen,
    LockFile.modes, hv, hnl, hof, hex, World.setFile, World.pathExists,
    LockFileState.init, READMODE]

theorem posixOpen_rb_eval (w : World) (st : LockFileState) (p : String)
    (c : List Nat)
    (hfile : st.file = PFile.none) (hbin : st.binary = false)
    (hv : _ValidateFileName Platform.posix p = true)
    (hex : w.files.lookup p = some c)
    (hnl : p ∉ w.locked) (hof : w.openFailure = Option.none) :
    LockFile.Open Platform.posix w st (some p) (some "rb")
        Option.none =
      (⟨w.files, p :: w.locked, Option.none, w.nativeErrMsg⟩,
       ⟨PyVal.str p, some (PyVal.str "r"), PFile.iobase p "rb" 0 true, true⟩,
       Except.ok ()) := by
  rcases st with ⟨fn0, md0, fl0, b0⟩
  simp only at hfile hbin
  subst hfile
  subst hbin
  simp +decide [LockFile.Open, LockFile.openAcquire, LockFile.posixNativeOpen,
    LockFile.modes, hv, hnl, hof, hex, World.setFile, World.pathExists,
    LockFileState.init, READMODE]

theorem posixOpen_a_eval (w : World) (st : LockFileState) (p : String)
    (c : List Nat)
    (hfile : st.file = PFile.none) (hbin : st.binary = false)
    (hv : _ValidateFileName Platform.posix p = true)
    (hex : w.files.lookup p = some c)
    (hnl : p ∉ w.locked) (hof : w.openFailure = Option.none) :
    LockFile.Open Platform.posix w st (some p) (some "a")
        Option.none =
      (⟨w.files, p :: w.locked, Option.none, w.nativeErrMsg⟩,
       ⟨PyVal.str p, some (PyVal.str "a"), PFile.iobase p "a" c.length true,
        false⟩,
       Except.ok ()) := by
  rcases st with ⟨fn0, md0, fl0, b0⟩
  simp only at hfile hbin
  subst hfile
  subst hbin
  simp +decide [LockFile.Open, LockFile.openAcquire, LockFile.posixNativeOpen,
    LockFile.modes, hv, hnl, hof, hex, World.setFile, World.pathExists,
    LockFileState.init, APPENDMODE]

theorem posixOpen_ab_eval (w : World) (st : LockFileState) (p : String)
    (c : List Nat)
    (hfile : st.file = PFile.none) (hbin : st.binary = false)
    (hv : _ValidateFileName Platform.posix p = true)
    (hex : w.files.lookup p = some c)
    (hnl : p ∉ w.locked) (hof : w.openFailure = Option.none) :
    LockFile.Open Platform.posix w st (some p) (some "ab")
        Option.none =
      (⟨w.files, p :: w.locked, Option.none, w.nativeErrMsg⟩,
       ⟨PyVal.str p, some (PyVal.str "a"), PFile.iobase p "ab" c.length true,
        true⟩,
       Except.ok ()) := by
  rcases st with ⟨fn0, md0, fl0, b0⟩
  simp only at hfile hbin
  subst hfile
  subst hbin
  simp +decide [LockFile.Open, LockFile.openAcquire, LockFile.posixNativeOpen,
    LockFile.modes, hv, hnl, hof, hex, World.setFile, World.pathExists,
    LockFileState.init, APPENDMODE]

theorem posixOpen_rw_eval (w : World) (st : LockFileState) (p : String)
    (c : List Nat)
    (hfile : st.file = PFile.none) (hbin : st.binary = false)
    (hv : _ValidateFileName Platform.posix p = true)
    (hex : w.files.lookup p = some c)
    (hnl : p ∉ w.locked) (hof : w.openFailure = Option.none) :
    LockFile.Open Platform.posix w st (some p) (some "rw")
        Option.none =
      (⟨w.files, p :: w.locked, Option.none, w.nativeErrMsg⟩,
       ⟨PyVal.str p, some (PyVal.str "r+"), PFile.iobase p "r+" 0 true, false⟩,
       Except.ok ()) := by
  rcases st with ⟨fn0, md0, fl0, b0⟩
  simp only at hfile hbin
  subst hfile
  subst hbin
  simp +decide [LockFile.Open, LockFile.openAcquire, LockFile.posixNativeOpen,
    LockFile.modes, hv, hnl, hof, hex, World.setFile, World.pathExists,
    LockFileState.init, WRITEANDREADMODE]

theorem winOpen_w_eval (w : World) (st : LockFileState) (p : String)
    (hfile : st.file = PFile.none) (hbin : st.binary = false)
    (hv : _ValidateFileName Platform.win32 p = true)
    (hnl : p ∉ w.locked) :
    LockFile.Open Platform.win32 w st (some p) (some "w")
        Option.none =
      (⟨(p, []) :: w.files, p :: w.locked, w.openFailure, w.nativeErrMsg⟩,
       ⟨PyVal.str p, some (PyVal.int 1073741824), PFile.handle true p 0,
        false⟩,
       Except.ok ()) := by
  rcases st with ⟨fn0, md0, fl0, b0⟩
  simp only at hfile hbin
  subst hfile
  subst hbin
  simp +decide [LockFile.Open, LockFile.openAcquire, LockFile.modes, hv, hnl,
    World.setFile, World.pathExists, LockFileState.init, WRITEMODE]

theorem winOpen_wb_eval (w : World) (st : LockFileState) (p : String)
    (hfile : st.file = PFile.none) (hbin : st.binary = false)
    (hv : _ValidateFileName Platform.win32 p = true)
    (hnl : p ∉ w.locked) :
    LockFile.Open Platform.win32 w st (some p) (some "wb")
        Option.none =
      (⟨(p, []) :: w.files, p :: w.locked, w.openFailure, w.nativeErrMsg⟩,
       ⟨PyVal.str p, some (PyVal.int 1073741824), PFile.handle true p 0,
        true⟩,
       Except.ok ()) := by
  rcases st with ⟨fn0, md0, fl0, b0⟩
  simp only at hfile hbin
  subst hfile
  subst hbin
  simp +decide [LockFile.Open, LockFile.openAcquire, LockFile.modes, hv, hnl,
    World.setFile, World.pathExists, LockFileState.init, WRITEMODE]

theorem winOpen_r_eval (w : World) (st : LockFileState) (p : String)
    (c : List Nat)
    (hfile : st.file = PFile.none) (hbin : st.binary = false)
    (hv : _ValidateFileName Platform.win32 p = true)
    (hex : w.files.lookup p = some c)
    (hnl : p ∉ w.locked) :
    LockFile.Open Platform.win32 w st (some p) (some "r")
        Option.none =
      (⟨w.files, p :: w.locked, w.openFailure, w.nativeErrMsg⟩,
       ⟨PyVal.str p, some (PyVal.int (-2147483648)), PFile.handle true p 0,
        false⟩,
       Except.ok ()) := by
  rcases st with ⟨fn0, md0, fl0, b0⟩
  simp only at hfile hbin
  subst hfile
  subst hbin
  simp +decide [LockFile.Open, LockFile.openAcquire, LockFile.modes, hv, hnl,
    hex, World.setFile, World.pathExists, LockFileState.init, READMODE]

theorem winOpen_rb_eval (w : World) (st : LockFileState) (p : String)
    (c : List Nat)
    (hfile : st.file = PFile.none) (hbin : st.binary = false)
    (hv : _ValidateFileName Platform.win32 p = true)
    (hex : w.files.lookup p = some c)
    (hnl : p ∉ w.locked) :
    LockFile.Open Platform.win32 w st (some p) (some "rb")
        Option.none =
      (⟨w.files, p :: w.locked, w.openFailure, w.nativeErrMsg⟩,
       ⟨PyVal.str p, some (PyVal.int (-2147483648)), PFile.handle true p 0,
        true⟩,
       Except.ok ()) := by
  rcases st with ⟨fn0, md0, fl0, b0⟩
  simp only at hfile hbin
  subst hfile
  subst hbin
  simp +decide [LockFile.Open, LockFile.openAcquire, LockFile.modes, hv, hnl,
    hex, World.setFile, World.pathExists, LockFileState.init, READMODE]

theorem winOpen_a_eval (w : World) (st : LockFileState) (p : String)
    (c : List Nat)
    (hfile : st.file = PFile.none) (hbin : st.binary = false)
    (hv : _ValidateFileName Platform.win32 p = true)
    (hex : w.files.lookup p = some c)
    (hnl : p ∉ w.locked)
    (hlen : (c.length : Int) ≤ 2 ^ 63 - 1) :
    LockFile.Open Platform.win32 w st (some p) (some "a")
        Option.none =
      (⟨w.files, p :: w.locked, w.openFailure, w.nativeErrMsg⟩,
       ⟨PyVal.str p, some (PyVal.int 1073741824),
        PFile.handle true p c.length, false⟩,
       Except.ok ()) := by
  rcases st with ⟨fn0, md0, fl0, b0⟩
  simp only at hfile hbin
  subst hfile
  subst hbin
  simp +decide [LockFile.Open, LockFile.openAcquire, LockFile.modes, hv, hnl,
    hex, World.setFile, World.pathExists, LockFileState.init, APPENDMODE,
    WRITEMODE, LockFile.Seek, LockFile.haveFileOpen, LockFile.privSeek,
    LARGE_INTEGER_size, World.contentsOf, LockFile.winSeekCurrent]
  rw [if_neg (by omega)]

theorem winOpen_ab_eval (w : World) (st : LockFileState) (p : String)
    (c : List Nat)
    (hfile : st.file = PFile.none) (hbin : st.binary = false)
    (hv : _ValidateFileName Platform.win32 p = true)
    (hex : w.files.lookup p = some c)
    (hnl : p ∉ w.locked) :
    LockFile.Open Platform.win32 w st (some p) (some "ab")
        Option.none =
      (⟨w.files, p :: w.locked, w.openFailure, w.nativeErrMsg⟩,
       ⟨PyVal.str p, some (PyVal.int 1073741824), PFile.handle true p 0,
        true⟩,
       Except.ok ()) := by
  rcases st with ⟨fn0, md0, fl0, b0⟩
  simp only at hfile hbin
  subst hfile
  subst hbin
  simp +decide [LockFile.Open, LockFile.openAcquire, LockFile.modes, hv, hnl,
    hex, World.setFile, World.pathExists, LockFileState.init, APPENDMODE,
    WRITEMODE]

theorem winOpen_rw_eval (w : World) (st : LockFileState) (p : String)
    (c : List Nat)
    (hfile : st.file = PFile.none) (hbin : st.binary = false)
    (hv : _ValidateFileName Platform.win32 p = true)
    (hex : w.files.lookup p = some c)
    (hnl : p ∉ w.locked) :
    LockFile.Open Platform.win32 w st (some p) (some "rw")
        Option.none =
      (⟨w.files, p :: w.locked, w.openFailure, w.nativeErrMsg⟩,
       ⟨PyVal.str p, some (PyVal.int (-1073741824)), PFile.handle true p 0,
        false⟩,
       Except.ok ()) := by
  rcases st with ⟨fn0, md0, fl0, b0⟩
  simp only at hfile hbin
  subst hfile
  subst hbin
  simp +decide [LockFile.Open, LockFile.openAcquire, LockFile.modes, hv, hnl,
    hex, World.setFile, World.pathExists, LockFileState.init,
    WRITEANDREADMODE]

theorem winOpen_rwb_eval (w : World) (st : LockFileState) (p : String)
    (c : List Nat)
    (hfile : st.file = PFile.none) (hbin : st.binary = false)
    (hv : _ValidateFileName Platform.win32 p = true)
    (hex : w.files.lookup p = some c)
    (hnl : p ∉ w.locked) :
    LockFile.Open Platform.win32 w st (some p) (some "rwb")
        Option.none =
      (⟨w.files, p :: w.locked, w.openFailure, w.nativeErrMsg⟩,
       ⟨PyVal.str p, some (PyVal.int (-1073741824)), PFile.handle true p 0,
        true⟩,
       Except.ok ()) := by
  rcases st with ⟨fn0, md0, fl0, b0⟩
  simp only at hfile hbin
  subst hfile
  subst hbin
  simp +decide [LockFile.Open, LockFile.openAcquire, LockFile.modes, hv, hnl,
    hex, World.setFile, World.pathExists, LockFileState.init,
    WRITEANDREADMODE]

theorem posixOpen_rwb_eval (w : World) (st : LockFileState) (p : String)
    (c : List Nat)
    (hfile : st.file = PFile.none) (hbin : st.binary = false)
    (hv : _ValidateFileName Platform.posix p = true)
    (hex : w.files.lookup p = some c)
    (hnl : p ∉ w.locked) (hof : w.openFailure = Option.none) :
    LockFile.Open Platform.posix w st (some p) (some "rwb")
        Option.none =
      (⟨w.files, p :: w.locked, Option.none, w.nativeErrMsg⟩,
       ⟨PyVal.str p, some (PyVal.str "r+"), PFile.iobase p "r+b" 0 true, true⟩,
       Except.ok ()) := by
  rcases st with ⟨fn0, md0, fl0, b0⟩
  simp only at hfile hbin
  subst hfile
  subst hbin
  simp +decide [LockFile.Open, LockFile.openAcquire, LockFile.posixNativeOpen,
    LockFile.modes, hv, hnl, hof, hex, World.setFile, World.pathExists,
    LockFileState.init, WRITEANDREADMODE]

/-! The claim theorems. -/

/-- C7: on a handle in the Closed state (never opened, or after `Close`),
`Seek`, `Seek2` and `GetFileSize` fail with the NotOpen
`UnsupportedOperation`; but `GetCursorPos` — whose own docstring says it is
equivalent to `Seek(0, "current")` — performs no `_HaveFileOpen` check and
instead evaluates `None.tell()` on POSIX (an `AttributeError`) and
`SetFilePointerEx` on a `None` handle on Windows (an `OSError`),
contradicting the claim's "GetCursorPos fails with the NotOpen error". -/
theorem C7_closed_handle_errors :
    LockFile.Seek Platform.posix ⟨[], [], Option.none, "e"⟩ LockFileState.init
        5 "current"
      = (⟨[], [], Option.none, "e"⟩, LockFileState.init,
         Except.error (Err.unsupportedOperation notOpenMsg))
    ∧ LockFile.Seek2 Platform.posix ⟨[], [], Option.none, "e"⟩
        LockFileState.init 5
      = (⟨[], [], Option.none, "e"⟩, LockFileState.init,
         Except.error (Err.unsupportedOperation notOpenMsg))
    ∧ LockFile.GetFileSize Platform.posix ⟨[], [], Option.none, "e"⟩
        LockFileState.init
      = (⟨[], [], Option.none, "e"⟩, LockFileState.init,
         Except.error (Err.unsupportedOperation notOpenMsg))
    ∧ LockFile.Seek Platform.win32 ⟨[], [], Option.none, "e"⟩
        LockFileState.init 5 "current"
      = (⟨[], [], Option.none, "e"⟩, LockFileState.init,
         Except.error (Err.unsupportedOperation notOpenMsg))
    ∧ LockFile.GetFileSize Platform.win32 ⟨[], [], Option.none, "e"⟩
        LockFileState.init
      = (⟨[], [], Option.none, "e"⟩, LockFileState.init,
         Except.error (Err.unsupportedOperation notOpenMsg))
    ∧ LockFile.GetCursorPos Platform.posix ⟨[], [], Option.none, "e"⟩
        LockFileState.init
      = (⟨[], [], Option.none, "e"⟩, LockFileState.init,
         Except.error Err.attributeError)
    ∧ LockFile.GetCursorPos Platform.win32 ⟨[], [], Option.none, "e"⟩
        LockFileState.init
      = (⟨[], [], Option.none, "e"⟩, LockFileState.init,
         Except.error (Err.osError "e")) := by
  decide

/-- C5: `Open` with the binary append token `"ab"` uses the create-or-open
disposition on both platforms, but the Windows branch's cursor-to-end step
is guarded by `if mode == 'a':`, which `'ab'` does not satisfy, so on
Windows a file of size 3 opened with `"ab"` leaves the cursor at 0 — while
`"a"` on Windows and `"ab"` on POSIX position it at end-of-file — refuting
the claim's "cursor is positioned at end-of-file immediately after opening,
on every platform" and the source's own docstring
(`ab: Same as "a" mode but in binary`). -/
theorem C5_windows_ab_cursor_at_zero :
    LockFile.Open Platform.win32 ⟨[("t.bin", [1, 2, 3])], [], Option.none, "e"⟩
        LockFileState.init (some "t.bin") (some "ab") Option.none
      = (⟨[("t.bin", [1, 2, 3])], ["t.bin"], Option.none, "e"⟩,
         ⟨PyVal.str "t.bin", some (PyVal.int 1073741824),
          PFile.handle true "t.bin" 0, true⟩,
         Except.ok ())
    ∧ (LockFile.Open Platform.win32
        ⟨[("t.bin", [1, 2, 3])], [], Option.none, "e"⟩
        LockFileState.init (some "t.bin") (some "a") Option.none).2.1.file
      = PFile.handle true "t.bin" 3
    ∧ (LockFile.Open Platform.posix
        ⟨[("t.bin", [1, 2, 3])], [], Option.none, "e"⟩
        LockFileState.init (some "t.bin") (some "ab") Option.none).2.1.file
      = PFile.iobase "t.bin" "ab" 3 true := by
  decide

/-- C4 counterexample: on the Windows branch, `Seek(2^63, "begin")` from a
freshly opened handle (cursor 0) is first clamped against
`LARGE_INTEGER_size // 2 - 1 + last_offset` and returns `2^63 - 1`, not the
claimed `max(0, offset) = 2^63` — the claim as stated omits the source's
upper clamp. -/
theorem C4_counterexample :
    (LockFile.Seek Platform.win32
      (LockFile.Open Platform.win32 ⟨[], [], Option.none, "e"⟩
        LockFileState.init (some "t.txt") (some "w") Option.none).1
      (LockFile.Open Platform.win32 ⟨[], [], Option.none, "e"⟩
        LockFileState.init (some "t.txt") (some "w") Option.none).2.1
      (2 ^ 63) "begin").2.2 = Except.ok (2 ^ 63 - 1)
    ∧ ((2 : Int) ^ 63 - 1) ≠ max 0 (2 ^ 63) := by
  decide

/-- C6 counterexample: after `Open` in append mode, `IsReadable()` returns
`True` on the POSIX branch (the stored mode string `"a"` differs from
`WRITEMODE = "w"`) but `False` on Windows (`APPENDMODE` is the same int as
`WRITEMODE`), refuting the claim's "`a`/`ab` give writeable and not
readable ... identically on every platform". -/
theorem C6_counterexample :
    LockFile.IsReadable Platform.posix
      (LockFile.Open Platform.posix ⟨[("t.txt", [104])], [], Option.none, "e"⟩
        LockFileState.init (some "t.txt") (some "a") Option.none).2.1 = true
    ∧ LockFile.IsReadable Platform.win32
      (LockFile.Open Platform.win32 ⟨[("t.txt", [104])], [], Option.none, "e"⟩
        LockFileState.init (some "t.txt") (some "a") Option.none).2.1 = false := by
  decide

/-- C9 counterexample: `Open("t.txt", "w", encoding=5)` on the POSIX branch
raises the encoding `TypeError` after `self._mode` has been assigned but
before any native resource is bound, leaving `accessMode` non-null with
`nativeResource` null — the invariant is not preserved by this failing
`Open`. -/
theorem C9_counterexample :
    LockFile.Open Platform.posix ⟨[], [], Option.none, "e"⟩ LockFileState.init
        (some "t.txt") (some "w") (some (PyVal.int 5))
      = (⟨[], [], Option.none, "e"⟩,
         ⟨PyVal.str "t.txt", some (PyVal.str "w"), PFile.none, false⟩,
         Except.error (Err.typeError "The encoding argument must be a string."))
    ∧ ¬ LockFileState.inv
        ⟨PyVal.str "t.txt", some (PyVal.str "w"), PFile.none, false⟩ := by
  constructor
  · decide
  · simp [LockFileState.inv]

/-- C1 counterexample: on the POSIX branch, when another process holds the
lock on `"t.txt"`, `Open` raises an `OSError` (from `flock`) as claimed —
but the opened file object has already been assigned to `self.__file` on
line 238, so the handle does NOT stay out of the Open-bound state: its
fields are bound despite the failed acquisition, and a retry of `Open` on
the same handle is then refused as already open.  This refutes the claim's
"only transitions the handle to Open (binding its fields) when the native
acquisition succeeds". -/
theorem C1_counterexample :
    (LockFile.Open Platform.posix
        ⟨[("t.txt", [1, 2])], ["t.txt"], Option.none, "l"⟩ LockFileState.init
        (some "t.txt") (some "w") Option.none).2.2
      = Except.error (Err.osError "l")
    ∧ (LockFile.Open Platform.posix
        ⟨[("t.txt", [1, 2])], ["t.txt"], Option.none, "l"⟩ LockFileState.init
        (some "t.txt") (some "w") Option.none).2.1.file
      = PFile.iobase "t.txt" "w" 0 false
    ∧ (LockFile.Open Platform.posix
        (LockFile.Open Platform.posix
          ⟨[("t.txt", [1, 2])], ["t.txt"], Option.none, "l"⟩ LockFileState.init
          (some "t.txt") (some "w") Option.none).1
        (LockFile.Open Platform.posix
          ⟨[("t.txt", [1, 2])], ["t.txt"], Option.none, "l"⟩ LockFileState.init
          (some "t.txt") (some "w") Option.none).2.1
        (some "t.txt") (some "w") Option.none).2.2
      = Except.error (Err.unsupportedOperation
          "Close the file first before opening another one.") := by
  decide

/-- C8: `Close()` never fails (it is a total function in this embedding,
matching the source, which raises nothing): it always clears all four
fields and leaves the handle Closed; a second `Close` is a no-op on both
the state and the world; `Close` on a never-opened (or already closed)
handle leaves the world untouched; and when a native resource with its
lock is held, closing releases the lock. -/
theorem C8_close_idempotent (plat : Platform) (w : World) (st : LockFileState) :
    (LockFile.Close plat w st).2
      = ⟨PyVal.bytes [], Option.none, PFile.none, false⟩
    ∧ LockFile.Close plat (LockFile.Close plat w st).1 (LockFile.Close plat w st).2
      = ((LockFile.Close plat w st).1, (LockFile.Close plat w st).2)
    ∧ (st.file = PFile.none → (LockFile.Close plat w st).1 = w)
    ∧ (∀ p m pos, plat = Platform.posix → st.file = PFile.iobase p m pos true →
        (LockFile.Close plat w st).1 = { w with locked := w.locked.erase p })
    ∧ (∀ p pos, plat = Platform.win32 → st.file = PFile.handle true p pos →
        (LockFile.Close plat w st).1 = { w with locked := w.locked.erase p }) := by
  cases plat <;> rcases st with ⟨fn, md, fl, b⟩ <;>
    rcases fl with _ | ⟨p, m, pos, l⟩ | ⟨v, p, pos⟩ <;>
    (try cases l) <;> (try cases v) <;> simp [LockFile.Close]

/-- Witness for C8: closing an open locked POSIX handle releases its lock
entry. -/
theorem C8_witness :
    (LockFile.Close Platform.posix ⟨[], ["t"], Option.none, "e"⟩
      ⟨PyVal.str "t", some (PyVal.str "w"), PFile.iobase "t" "w" 0 true,
       false⟩).1
      = { (⟨[], ["t"], Option.none, "e"⟩ : World) with
          locked := (["t"] : List String).erase "t" } := by
  have h := C8_close_idempotent Platform.posix ⟨[], ["t"], Option.none, "e"⟩
    ⟨PyVal.str "t", some (PyVal.str "w"), PFile.iobase "t" "w" 0 true, false⟩
  exact h.2.2.2.1 "t" "w" 0 rfl rfl

/-- C10: constructing a `LockFile` (or calling the module-level `Open`)
with exactly one of `filename`/`mode` does not produce a closed handle —
the constructor immediately invokes `Open`, which raises: the
`InvalidMode` `ValueError` when the mode is missing (and the provided
filename is valid; an invalid one raises the filename `ValueError`, still
an error), and the `TypeError` when the filename is missing.  Only with
both arguments omitted is a closed reusable handle produced. -/
theorem C10_one_arg_constructor (plat : Platform) (w : World) (f m2 : String)
    (enc : Option PyVal) (hv : _ValidateFileName plat f = true) :
    LockFile.new plat w (some f) Option.none enc
      = (w, ⟨PyVal.str f, Option.none, PFile.none, false⟩,
         Except.error (Err.valueError invalidModeMsg))
    ∧ LockFile.new plat w Option.none (some m2) enc
      = (w, LockFileState.init,
         Except.error (Err.typeError "Only str and bytes data types are accepted."))
    ∧ LockFile.new plat w Option.none Option.none enc
      = (w, LockFileState.init, Except.ok ())
    ∧ (∀ f2 : String, ∃ e, (LockFile.new plat w (some f2) Option.none enc).2.2
        = Except.error e)
    ∧ Open plat w (some f) Option.none enc
      = (w, ⟨PyVal.str f, Option.none, PFile.none, false⟩,
         Except.error (Err.valueError invalidModeMsg)) := by
  have base : ∀ f2 : String, _ValidateFileName plat f2 = true →
      LockFile.new plat w (some f2) Option.none enc
        = (w, ⟨PyVal.str f2, Option.none, PFile.none, false⟩,
           Except.error (Err.valueError invalidModeMsg)) := by
    intro f2 hv2
    cases plat <;>
      simp [LockFile.new, LockFile.Open, LockFileState.init, hv2]
  have base2 : LockFile.new plat w Option.none (some m2) enc
      = (w, LockFileState.init,
         Except.error (Err.typeError "Only str and bytes data types are accepted.")) := by
    cases plat <;> simp [LockFile.new, LockFile.Open, LockFileState.init]
  refine ⟨base f hv, base2, ?_, ?_, base f hv⟩
  · simp [LockFile.new]
  · intro f2
    by_cases hv2 : _ValidateFileName plat f2 = true
    · exact ⟨Err.valueError invalidModeMsg, by rw [base f2 hv2]⟩
    · refine ⟨Err.valueError "The file name has characters that are not allowed.", ?_⟩
      cases plat <;>
        simp [LockFile.new, LockFile.Open, LockFileState.init, hv2]

/-- Witness for C10: the two one-argument constructor calls at a concrete
valid filename and mode. -/
theorem C10_witness :
    LockFile.new Platform.posix ⟨[], [], Option.none, "e"⟩ (some "t.txt")
        Option.none Option.none
      = (⟨[], [], Option.none, "e"⟩,
         ⟨PyVal.str "t.txt", Option.none, PFile.none, false⟩,
         Except.error (Err.valueError invalidModeMsg))
    ∧ LockFile.new Platform.posix ⟨[], [], Option.none, "e"⟩ Option.none
        (some "w") Option.none
      = (⟨[], [], Option.none, "e"⟩, LockFileState.init,
         Except.error (Err.typeError "Only str and bytes data types are accepted.")) := by
  have h := C10_one_arg_constructor Platform.posix ⟨[], [], Option.none, "e"⟩
    "t.txt" "w" Option.none (by decide)
  exact ⟨h.1, h.2.1⟩

/-- A unit sequence without a carriage return (code 13) is untouched by
the universal-newline translation, whatever it holds otherwise. -/
theorem univNewlinesGo_of_no_cr (u : List Nat) (h : 13 ∉ u) :
    univNewlinesGo false u = u := by
  induction u with
  | nil => rfl
  | cons a t ih =>
    simp only [List.mem_cons, not_or] at h
    have ha13 : ¬ a = 13 := fun hh => h.1 hh.symm
    by_cases ha : a = 10
    · subst ha
      simp [univNewlinesGo, ih h.2]
    · simp [univNewlinesGo, ha13, ha, ih h.2]

/-- `univNewlines` is the identity on carriage-return-free data. -/
theorem univNewlines_of_no_cr (u : List Nat) (h : 13 ∉ u) :
    univNewlines u = u :=
  univNewlinesGo_of_no_cr u h

/-- Reading the whole file: `readClamp` at cursor 0 with `n = -1` yields
exactly the file size. -/
theorem readClamp_zero_neg_one (L : Int) (hL : 0 ≤ L) :
    readClamp 0 L (-1) = L := by
  unfold readClamp
  split_ifs <;> omega

/-- C2 counterexample: the text round trip is not exact for every string.
The POSIX `open` passes no `newline=` argument, so text reads use universal
newlines: writing `"a\rb"` (units `[97, 13, 98]`) through `"w"`, closing,
reopening in `"r"` and reading with `n = -1` returns `"a\nb"`
(`[97, 10, 98]`), not the string written.  This refutes the claim's
"returns exactly d" for the non-binary half. -/
theorem C2_counterexample :
    roundTrip ⟨[], [], Option.none, "e"⟩ "t.txt" "w" "r"
        (PyData.str [97, 13, 98])
      = Except.ok (PyData.str [97, 10, 98])
    ∧ Except.ok (PyData.str [97, 10, 98])
      ≠ (Except.ok (PyData.str [97, 13, 98]) : Except Err PyData) := by
  decide

/-- C2 (amended): on the POSIX branch, for every unit sequence `u`, the
binary round trip (`"wb"`/`"rb"`) returns exactly `u`; the text round trip
(`"w"`/`"r"`) returns `u` with universal-newline translation applied on
readback — which is exactly `u` whenever `u` contains no carriage return
(code 13). -/
theorem C2_write_read_roundtrip (w : World) (p : String) (u : List Nat)
    (hv : _ValidateFileName Platform.posix p = true)
    (hnl : p ∉ w.locked) (hof : w.openFailure = Option.none) :
    roundTrip w p "wb" "rb" (PyData.bytes u) = Except.ok (PyData.bytes u)
    ∧ roundTrip w p "w" "r" (PyData.str u)
      = Except.ok (PyData.str (univNewlines u))
    ∧ (13 ∉ u →
        roundTrip w p "w" "r" (PyData.str u) = Except.ok (PyData.str u)) := by
  have hbin : roundTrip w p "wb" "rb" (PyData.bytes u)
      = Except.ok (PyData.bytes u) := by
    have h1 := posixOpen_wb_eval w LockFileState.init p rfl rfl hv hnl hof
    have h2 := posixOpen_rb_eval
      ⟨(p, u) :: (p, []) :: w.files, w.locked, Option.none, w.nativeErrMsg⟩
      ⟨PyVal.bytes [], Option.none, PFile.none, false⟩ p u rfl rfl hv
      (by simp) hnl rfl
    simp +decide [roundTrip, h1, h2, LockFile.Write, LockFile.Close,
      LockFile.Read, LockFile.GetFileSize, LockFile.haveFileOpen,
      World.contentsOf, World.setFile, readClamp_zero_neg_one]
  have htext : roundTrip w p "w" "r" (PyData.str u)
      = Except.ok (PyData.str (univNewlines u)) := by
    have h1 := posixOpen_w_eval w LockFileState.init p rfl rfl hv hnl hof
    have h2 := posixOpen_r_eval
      ⟨(p, u) :: (p, []) :: w.files, w.locked, Option.none, w.nativeErrMsg⟩
      ⟨PyVal.bytes [], Option.none, PFile.none, false⟩ p u rfl rfl hv
      (by simp) hnl rfl
    simp +decide [roundTrip, h1, h2, LockFile.Write, LockFile.Close,
      LockFile.Read, LockFile.GetFileSize, LockFile.haveFileOpen,
      World.contentsOf, World.setFile, readClamp_zero_neg_one]
  refine ⟨hbin, htext, fun hcr => ?_⟩
  rw [htext, univNewlines_of_no_cr u hcr]

/-- Witness for C2: three bytes through `"wb"`/`"rb"`, and the spec's own
scenario — `"hello"` (as UTF-8 units, carriage-return-free) through
`"w"`/`"r"`. -/
theorem C2_witness :
    roundTrip ⟨[], [], Option.none, "e"⟩ "t.bin" "wb" "rb"
        (PyData.bytes [0, 1, 2])
      = Except.ok (PyData.bytes [0, 1, 2])
    ∧ roundTrip ⟨[], [], Option.none, "e"⟩ "t.txt" "w" "r"
        (PyData.str [104, 101, 108, 108, 111])
      = Except.ok (PyData.str [104, 101, 108, 108, 111]) := by
  have h1 := C2_write_read_roundtrip ⟨[], [], Option.none, "e"⟩ "t.txt"
    [104, 101, 108, 108, 111] (by decide) (by simp) rfl
  have h2 := C2_write_read_roundtrip ⟨[], [], Option.none, "e"⟩ "t.bin"
    [0, 1, 2] (by decide) (by simp) rfl
  exact ⟨h2.1, h1.2.2 (by decide)⟩

/-! Seek evaluation helpers. -/

theorem posixSeekCurrent_eval (w : World) (fn : PyVal) (md : Option PyVal)
    (b : Bool) (pth m : String) (pos : Nat) (l : Bool) (offset : Int) :
    LockFile.posixSeekCurrent w ⟨fn, md, PFile.iobase pth m pos l, b⟩ offset =
      (w, ⟨fn, md, PFile.iobase pth m (max 0 ((pos : Int) + offset)).toNat l, b⟩,
       Except.ok (max 0 ((pos : Int) + offset))) := by
  simp only [LockFile.posixSeekCurrent]
  split_ifs <;> simp_all <;> omega

theorem privSeek_ok_eval (w : World) (fn : PyVal) (md : Option PyVal)
    (b : Bool) (pth : String) (pos : Nat) (offset target : Int) (sp : Nat)
    (ht : target = if sp = 0 then offset
          else if sp = 1 then (pos : Int) + offset
          else ((w.contentsOf pth).length : Int) + offset)
    (h0 : 0 ≤ target) (h1 : target ≤ 2 ^ 63 - 1) :
    LockFile.privSeek w ⟨fn, md, PFile.handle true pth pos, b⟩ offset sp =
      (w, ⟨fn, md, PFile.handle true pth target.toNat, b⟩, Except.ok target) := by
  simp only [LockFile.privSeek, LARGE_INTEGER_size]
  rw [← ht]
  rw [if_neg (by omega)]

theorem posixSeek_eval (w : World) (md : Option PyVal) (b : Bool)
    (pth m s : String) (pos : Nat) (l : Bool) (c : List Nat) (offset : Int)
    (hc : w.files.lookup s = some c) :
    LockFile.Seek Platform.posix w ⟨PyVal.str s, md, PFile.iobase pth m pos l, b⟩
        offset "begin"
      = (w, ⟨PyVal.str s, md, PFile.iobase pth m (max 0 offset).toNat l, b⟩,
         Except.ok (max 0 offset))
    ∧ LockFile.Seek Platform.posix w
        ⟨PyVal.str s, md, PFile.iobase pth m pos l, b⟩ offset "current"
      = (w, ⟨PyVal.str s, md,
          PFile.iobase pth m (max 0 ((pos : Int) + offset)).toNat l, b⟩,
         Except.ok (max 0 ((pos : Int) + offset)))
    ∧ LockFile.Seek Platform.posix w
        ⟨PyVal.str s, md, PFile.iobase pth m pos l, b⟩ offset "end"
      = (w, ⟨PyVal.str s, md,
          PFile.iobase pth m (max 0 ((c.length : Int) + offset)).toNat l, b⟩,
         Except.ok (max 0 ((c.length : Int) + offset))) := by
  refine ⟨?_, ?_, ?_⟩
  · simp +decide [LockFile.Seek, LockFile.haveFileOpen, posixSeekTo,
      posixSeekCurrent_eval]
  · simp +decide [LockFile.Seek, LockFile.haveFileOpen,
      posixSeekCurrent_eval]
  · simp +decide [LockFile.Seek, LockFile.haveFileOpen,
      LockFile.GetFileSize, hc, posixSeekTo, posixSeekCurrent_eval]

theorem winSeek_begin_eval (w : World) (fn : PyVal) (md : Option PyVal)
    (b : Bool) (pth : String) (pos : Nat) (offset : Int)
    (hpos : (pos : Int) ≤ 2 ^ 63 - 1)
    (hoff : offset ≤ 2 ^ 63 - 1) :
    LockFile.Seek Platform.win32 w ⟨fn, md, PFile.handle true pth pos, b⟩
        offset "begin"
      = (w, ⟨fn, md, PFile.handle true pth (max 0 offset).toNat, b⟩,
         Except.ok (max 0 offset)) := by
  simp only [LockFile.Seek, LockFile.haveFileOpen]
  rw [privSeek_ok_eval w fn md b pth pos 0 (pos : Int) 1 (by simp) (by omega)
    (by omega)]
  simp only [Int.toNat_natCast]
  by_cases h : offset < 0
  · simp +decide [h]
    rw [privSeek_ok_eval w fn md b pth pos 0 0 0 (by simp) (by omega)
      (by omega)]
    simp
    omega
  · simp +decide [h, LARGE_INTEGER_size]
    rw [if_neg (by omega)]
    rw [privSeek_ok_eval w fn md b pth pos offset offset 0 (by simp)
      (by omega) (by omega)]
    simp
    omega

theorem winSeek_current_eval (w : World) (fn : PyVal) (md : Option PyVal)
    (b : Bool) (pth : String) (pos : Nat) (offset : Int)
    (hpos : (pos : Int) ≤ 2 ^ 63 - 1)
    (htar : (pos : Int) + offset ≤ 2 ^ 63 - 1) :
    LockFile.Seek Platform.win32 w ⟨fn, md, PFile.handle true pth pos, b⟩
        offset "current"
      = (w, ⟨fn, md, PFile.handle true pth (max 0 ((pos : Int) + offset)).toNat,
          b⟩,
         Except.ok (max 0 ((pos : Int) + offset))) := by
  simp only [LockFile.Seek, LockFile.haveFileOpen]
  rw [privSeek_ok_eval w fn md b pth pos 0 (pos : Int) 1 (by simp) (by omega)
    (by omega)]
  simp only [Int.toNat_natCast]
  by_cases h : offset < 0 ∧ (pos : Int) + offset < 0
  · simp +decide [h.1, h.2, LARGE_INTEGER_size, h]
    rw [privSeek_ok_eval w fn md b pth pos (-(pos : Int)) 0 1 (by simp)
      (by omega) (by omega)]
    simp
    omega
  · simp +decide [LARGE_INTEGER_size, h]
    rw [if_neg (by omega)]
    rw [privSeek_ok_eval w fn md b pth pos offset ((pos : Int) + offset) 1
      (by simp) (by omega) (by omega)]
    simp
    constructor
    · omega
    · omega

theorem winSeekCurrent_eval (w : World) (fn : PyVal) (md : Option PyVal)
    (b : Bool) (pth : String) (pos : Nat) (offset : Int)
    (hpos : (pos : Int) ≤ 2 ^ 63 - 1)
    (htar : (pos : Int) + offset ≤ 2 ^ 63 - 1) :
    LockFile.winSeekCurrent w ⟨fn, md, PFile.handle true pth pos, b⟩ offset
      = (w, ⟨fn, md, PFile.handle true pth (max 0 ((pos : Int) + offset)).toNat,
          b⟩,
         Except.ok (max 0 ((pos : Int) + offset))) := by
  simp only [LockFile.winSeekCurrent]
  rw [privSeek_ok_eval w fn md b pth pos 0 (pos : Int) 1 (by simp) (by omega)
    (by omega)]
  simp only [Int.toNat_natCast]
  by_cases h : offset < 0 ∧ (pos : Int) + offset < 0
  · rw [if_pos h]
    rw [privSeek_ok_eval w fn md b pth pos (-(pos : Int)) 0 1 (by simp)
      (by omega) (by omega)]
    simp
    omega
  · rw [if_neg h]
    simp only [LARGE_INTEGER_size]
    rw [if_neg (by omega)]
    rw [privSeek_ok_eval w fn md b pth pos offset ((pos : Int) + offset) 1
      (by simp) (by omega) (by omega)]
    simp
    constructor
    · omega
    · omega

theorem winSeek_end_eval (w : World) (fn : PyVal) (md : Option PyVal)
    (b : Bool) (pth : String) (pos : Nat) (offset : Int)
    (hpos : (pos : Int) ≤ 2 ^ 63 - 1)
    (hsz : ((w.contentsOf pth).length : Int) ≤ 2 ^ 63 - 1)
    (htar : ((w.contentsOf pth).length : Int) + offset ≤ 2 ^ 63 - 1) :
    LockFile.Seek Platform.win32 w ⟨fn, md, PFile.handle true pth pos, b⟩
        offset "end"
      = (w, ⟨fn, md, PFile.handle true pth
          (max 0 (((w.contentsOf pth).length : Int) + offset)).toNat, b⟩,
         Except.ok (max 0 (((w.contentsOf pth).length : Int) + offset))) := by
  simp only [LockFile.Seek, LockFile.haveFileOpen]
  rw [privSeek_ok_eval w fn md b pth pos 0 (pos : Int) 1 (by simp) (by omega)
    (by omega)]
  simp only [Int.toNat_natCast]
  by_cases h : offset < 0
  · simp +decide [h]
    rw [privSeek_ok_eval w fn md b pth pos 0
      ((w.contentsOf pth).length : Int) 2 (by simp) (by omega) (by omega)]
    show LockFile.winSeekCurrent w
      ⟨fn, md, PFile.handle true pth ((w.contentsOf pth).length : Int).toNat,
       b⟩ offset = _
    simp only [Int.toNat_natCast]
    rw [winSeekCurrent_eval w fn md b pth (w.contentsOf pth).length offset
      (by omega) (by omega)]
  · simp +decide [h, LARGE_INTEGER_size]
    rw [if_neg (by omega)]
    rw [privSeek_ok_eval w fn md b pth pos offset
      (((w.contentsOf pth).length : Int) + offset) 2 (by simp) (by omega)
      (by omega)]
    simp
    constructor
    · omega
    · omega

theorem privSeek_ok_nonneg (w : World) (st : LockFileState) (offset : Int)
    (sp : Nat) (v : Int)
    (h : (LockFile.privSeek w st offset sp).2.2 = Except.ok v) : 0 ≤ v := by
  rcases st with ⟨fn, md, fl, b⟩
  rcases fl with _ | ⟨pth, m, pos, l⟩ | ⟨valid, pth, pos⟩
  · simp [LockFile.privSeek] at h
  · simp [LockFile.privSeek] at h
  · cases valid
    · simp [LockFile.privSeek] at h
    · simp only [LockFile.privSeek] at h
      generalize ht : (if sp = 0 then offset
        else if sp = 1 then ((pos : Int)) + offset
        else (((w.contentsOf pth).length : Int)) + offset) = t at h
      split at h
      · simp at h
      · rename_i hc
        simp at h
        omega

theorem posixSeekCurrent_ok_nonneg (w : World) (st : LockFileState)
    (offset : Int) (v : Int)
    (h : (LockFile.posixSeekCurrent w st offset).2.2 = Except.ok v) : 0 ≤ v := by
  rcases st with ⟨fn, md, fl, b⟩
  rcases fl with _ | ⟨pth, m, pos, l⟩ | ⟨valid, pth, pos⟩
  · simp [LockFile.posixSeekCurrent] at h
  · simp only [LockFile.posixSeekCurrent] at h
    split_ifs at h with h1 h2 h3 <;> simp at h <;> omega
  · simp [LockFile.posixSeekCurrent] at h

theorem winSeekCurrent_ok_nonneg (w : World) (st : LockFileState)
    (offset : Int) (v : Int)
    (h : (LockFile.winSeekCurrent w st offset).2.2 = Except.ok v) : 0 ≤ v := by
  unfold LockFile.winSeekCurrent at h
  split at h
  · simp at h
  · exact privSeek_ok_nonneg _ _ _ _ _ h

theorem seek_ok_nonneg (plat : Platform) (w : World) (st : LockFileState)
    (offset : Int) (sp : String) (v : Int)
    (h : (LockFile.Seek plat w st offset sp).2.2 = Except.ok v) : 0 ≤ v := by
  unfold LockFile.Seek at h
  split at h
  · simp at h
  · cases plat
    · simp only at h
      split at h
      · simp at h
      · split_ifs at h <;>
          first
            | exact privSeek_ok_nonneg _ _ _ _ _ h
            | simp at h
            | (split at h <;>
                first
                  | simp at h
                  | exact winSeekCurrent_ok_nonneg _ _ _ _ h)
    · simp only at h
      split_ifs at h <;>
        first
          | exact posixSeekCurrent_ok_nonneg _ _ _ _ h
          | simp at h
          | (split at h <;>
              first
                | simp at h
                | exact posixSeekCurrent_ok_nonneg _ _ _ _ h)

/-- C4 (amended): `Seek` normalizes positions as the claim states — Begin
gives `max(0, offset)`, Current gives `currentPosition + offset` clamped
below at 0, End gives `fileSize + offset` under the Current clamping (on
POSIX literally by moving to end-of-file and re-entering as a Current
seek) — exactly on the POSIX branch for all offsets, and on the Windows
branch whenever the current position and the resulting target fit in a
signed 64-bit `LARGE_INTEGER`; larger offsets are first clamped against
`LARGE_INTEGER_size // 2 - 1 + last_offset` (see the counterexample).  Any
successful `Seek` on either platform returns a non-negative position. -/
theorem C4_seek_normalization (w : World) (md mdw : Option PyVal)
    (b bw : Bool) (pth m s pthw : String) (pos posw : Nat) (l : Bool)
    (c : List Nat) (offset : Int) (fnw : PyVal)
    (hc : w.files.lookup s = some c) :
    (LockFile.Seek Platform.posix w
        ⟨PyVal.str s, md, PFile.iobase pth m pos l, b⟩ offset "begin").2.2
      = Except.ok (max 0 offset)
    ∧ (LockFile.Seek Platform.posix w
        ⟨PyVal.str s, md, PFile.iobase pth m pos l, b⟩ offset "current").2.2
      = Except.ok (max 0 ((pos : Int) + offset))
    ∧ (LockFile.Seek Platform.posix w
        ⟨PyVal.str s, md, PFile.iobase pth m pos l, b⟩ offset "end").2.2
      = Except.ok (max 0 ((c.length : Int) + offset))
    ∧ ((posw : Int) ≤ 2 ^ 63 - 1 → offset ≤ 2 ^ 63 - 1 →
        (LockFile.Seek Platform.win32 w
          ⟨fnw, mdw, PFile.handle true pthw posw, bw⟩ offset "begin").2.2
        = Except.ok (max 0 offset))
    ∧ ((posw : Int) ≤ 2 ^ 63 - 1 → (posw : Int) + offset ≤ 2 ^ 63 - 1 →
        (LockFile.Seek Platform.win32 w
          ⟨fnw, mdw, PFile.handle true pthw posw, bw⟩ offset "current").2.2
        = Except.ok (max 0 ((posw : Int) + offset)))
    ∧ ((posw : Int) ≤ 2 ^ 63 - 1 →
       ((w.contentsOf pthw).length : Int) ≤ 2 ^ 63 - 1 →
       ((w.contentsOf pthw).length : Int) + offset ≤ 2 ^ 63 - 1 →
        (LockFile.Seek Platform.win32 w
          ⟨fnw, mdw, PFile.handle true pthw posw, bw⟩ offset "end").2.2
        = Except.ok (max 0 (((w.contentsOf pthw).length : Int) + offset)))
    ∧ (∀ (plat : Platform) (st2 : LockFileState) (off2 : Int) (sp2 : String)
        (v : Int),
        (LockFile.Seek plat w st2 off2 sp2).2.2 = Except.ok v → 0 ≤ v) := by
  obtain ⟨e1, e2, e3⟩ := posixSeek_eval w md b pth m s pos l c offset hc
  refine ⟨by rw [e1], by rw [e2], by rw [e3], ?_, ?_, ?_, ?_⟩
  · intro h1 h2
    rw [winSeek_begin_eval w fnw mdw bw pthw posw offset h1 h2]
  · intro h1 h2
    rw [winSeek_current_eval w fnw mdw bw pthw posw offset h1 h2]
  · intro h1 h2 h3
    rw [winSeek_end_eval w fnw mdw bw pthw posw offset h1 h2 h3]
  · intro plat st2 off2 sp2 v hv
    exact seek_ok_nonneg plat w st2 off2 sp2 v hv

/-- Witness for C4: negative relative and end-anchored seeks on a 2-unit
file from position 1, on both platforms. -/
theorem C4_witness :
    (LockFile.Seek Platform.posix ⟨[("t", [1, 2])], [], Option.none, "e"⟩
        ⟨PyVal.str "t", some (PyVal.str "r"), PFile.iobase "t" "r" 1 true,
         false⟩ (-7) "current").2.2
      = Except.ok (max 0 ((1 : Int) + (-7)))
    ∧ (LockFile.Seek Platform.posix ⟨[("t", [1, 2])], [], Option.none, "e"⟩
        ⟨PyVal.str "t", some (PyVal.str "r"), PFile.iobase "t" "r" 1 true,
         false⟩ (-7) "end").2.2
      = Except.ok (max 0 ((([1, 2] : List Nat).length : Int) + (-7)))
    ∧ (LockFile.Seek Platform.win32 ⟨[("t", [1, 2])], [], Option.none, "e"⟩
        ⟨PyVal.str "t", some (PyVal.int 1073741824), PFile.handle true "t" 1,
         false⟩ (-7) "current").2.2
      = Except.ok (max 0 ((1 : Int) + (-7))) := by
  have h := C4_seek_normalization ⟨[("t", [1, 2])], [], Option.none, "e"⟩
    (some (PyVal.str "r")) (some (PyVal.int 1073741824)) false false
    "t" "r" "t" "t" 1 1 true [1, 2] (-7)
    (PyVal.str "t") (by decide)
  refine ⟨h.2.1, h.2.2.1, ?_⟩
  exact h.2.2.2.2.1 (by decide) (by decide)

/-- C6 (amended): for each of the eight valid mode tokens, `Open` followed
immediately by `IsWriteable()`/`IsReadable()` reflects the token's
direction as follows: `r`/`rb` give readable and not writeable and
`w`/`wb`, `rw`/`rwb` behave exactly as claimed on both platforms; `a`/`ab`
give writeable on both platforms and not readable on Windows, but on the
POSIX branch `IsReadable()` returns `true` for append mode (the stored
mode string `"a"` differs from `WRITEMODE = "w"`), so the claim's
"identically on every platform" fails only there. -/
theorem C6_mode_direction (w : World) (p : String) (c : List Nat) (m : String)
    (hvp : _ValidateFileName Platform.posix p = true)
    (hvw : _ValidateFileName Platform.win32 p = true)
    (hex : w.files.lookup p = some c)
    (hnl : p ∉ w.locked) (hof : w.openFailure = Option.none)
    (hlen : (c.length : Int) ≤ 2 ^ 63 - 1)
    (hm : m ∈ LockFile.modes) :
    (LockFile.Open Platform.posix w LockFileState.init (some p) (some m)
        Option.none).2.2 = Except.ok ()
    ∧ (LockFile.Open Platform.win32 w LockFileState.init (some p) (some m)
        Option.none).2.2 = Except.ok ()
    ∧ LockFile.IsWriteable Platform.posix
        (LockFile.Open Platform.posix w LockFileState.init (some p) (some m)
          Option.none).2.1
      = !(["r", "rb"].contains m)
    ∧ LockFile.IsWriteable Platform.win32
        (LockFile.Open Platform.win32 w LockFileState.init (some p) (some m)
          Option.none).2.1
      = !(["r", "rb"].contains m)
    ∧ LockFile.IsReadable Platform.win32
        (LockFile.Open Platform.win32 w LockFileState.init (some p) (some m)
          Option.none).2.1
      = (["r", "rb", "rw", "rwb"].contains m)
    ∧ LockFile.IsReadable Platform.posix
        (LockFile.Open Platform.posix w LockFileState.init (some p) (some m)
          Option.none).2.1
      = (["r", "rb", "rw", "rwb", "a", "ab"].contains m) := by
  fin_cases hm
  · rw [posixOpen_w_eval w _ p rfl rfl hvp hnl hof,
      winOpen_w_eval w _ p rfl rfl hvw hnl]
    simp +decide [LockFile.IsWriteable, LockFile.IsReadable, READMODE,
      WRITEMODE]
  · rw [posixOpen_r_eval w _ p c rfl rfl hvp hex hnl hof,
      winOpen_r_eval w _ p c rfl rfl hvw hex hnl]
    simp +decide [LockFile.IsWriteable, LockFile.IsReadable, READMODE,
      WRITEMODE]
  · rw [posixOpen_a_eval w _ p c rfl rfl hvp hex hnl hof,
      winOpen_a_eval w _ p c rfl rfl hvw hex hnl hlen]
    simp +decide [LockFile.IsWriteable, LockFile.IsReadable, READMODE,
      WRITEMODE]
  · rw [posixOpen_rw_eval w _ p c rfl rfl hvp hex hnl hof,
      winOpen_rw_eval w _ p c rfl rfl hvw hex hnl]
    simp +decide [LockFile.IsWriteable, LockFile.IsReadable, READMODE,
      WRITEMODE]
  · rw [posixOpen_wb_eval w _ p rfl rfl hvp hnl hof,
      winOpen_wb_eval w _ p rfl rfl hvw hnl]
    simp +decide [LockFile.IsWriteable, LockFile.IsReadable, READMODE,
      WRITEMODE]
  · rw [posixOpen_rb_eval w _ p c rfl rfl hvp hex hnl hof,
      winOpen_rb_eval w _ p c rfl rfl hvw hex hnl]
    simp +decide [LockFile.IsWriteable, LockFile.IsReadable, READMODE,
      WRITEMODE]
  · rw [posixOpen_ab_eval w _ p c rfl rfl hvp hex hnl hof,
      winOpen_ab_eval w _ p c rfl rfl hvw hex hnl]
    simp +decide [LockFile.IsWriteable, LockFile.IsReadable, READMODE,
      WRITEMODE]
  · rw [posixOpen_rwb_eval w _ p c rfl rfl hvp hex hnl hof,
      winOpen_rwb_eval w _ p c rfl rfl hvw hex hnl]
    simp +decide [LockFile.IsWriteable, LockFile.IsReadable, READMODE,
      WRITEMODE]

/-- Witness for C6: the `rw` token at a concrete world. -/
theorem C6_witness :
    LockFile.IsWriteable Platform.posix
      (LockFile.Open Platform.posix ⟨[("t", [1])], [], Option.none, "e"⟩
        LockFileState.init (some "t") (some "rw") Option.none).2.1
      = !((["r", "rb"] : List String).contains "rw")
    ∧ LockFile.IsReadable Platform.win32
      (LockFile.Open Platform.win32 ⟨[("t", [1])], [], Option.none, "e"⟩
        LockFileState.init (some "t") (some "rw") Option.none).2.1
      = ((["r", "rb", "rw", "rwb"] : List String).contains "rw") := by
  have h := C6_mode_direction ⟨[("t", [1])], [], Option.none, "e"⟩ "t" [1]
    "rw" (by decide) (by decide) (by decide) (by simp) rfl (by decide)
    (by decide)
  exact ⟨h.2.2.1, h.2.2.2.2.1⟩

/-- C1 (amended): for every mode token and a valid, existing path on a
fresh handle.  On the POSIX branch: a failing native `open` makes `Open`
raise an `OSError` wrapping the native message with nothing bound; when
another process holds the lock, `Open` raises an `OSError` wrapping the
native lock error, but — because `self.__file` is assigned before `flock`
is attempted — the handle retains the bound file object instead of staying
closed; when acquisition succeeds the handle transitions to Open with its
file and mode bound; and opening the same path again after the first
handle's `Close` succeeds.  On the Windows branch the claimed error does
not happen at all: the line-225 `if self.__file == 4294967295` check is
dead (a ctypes `HANDLE` instance never compares equal to an int), so when
another process holds the file `Open` returns successfully with an invalid
handle bound — except for mode `"a"`, whose immediate `Seek(0, "end")` on
the invalid handle raises an `OSError` wrapping the native message. -/
theorem C1_lock_open_behavior (w : World) (p : String) (c : List Nat)
    (m : String)
    (hv : _ValidateFileName Platform.posix p = true)
    (hex : w.files.lookup p = some c)
    (hm : m ∈ LockFile.modes) :
    (∀ msg, w.openFailure = some msg →
      (LockFile.Open Platform.posix w LockFileState.init (some p) (some m)
        Option.none).2.2 = Except.error (Err.osError msg)
      ∧ (LockFile.Open Platform.posix w LockFileState.init (some p) (some m)
        Option.none).2.1.file = PFile.none)
    ∧ (w.openFailure = Option.none → p ∈ w.locked →
      (LockFile.Open Platform.posix w LockFileState.init (some p) (some m)
        Option.none).2.2 = Except.error (Err.osError w.nativeErrMsg)
      ∧ (LockFile.Open Platform.posix w LockFileState.init (some p) (some m)
        Option.none).2.1.file ≠ PFile.none)
    ∧ (w.openFailure = Option.none → p ∉ w.locked →
      (LockFile.Open Platform.posix w LockFileState.init (some p) (some m)
        Option.none).2.2 = Except.ok ()
      ∧ (LockFile.Open Platform.posix w LockFileState.init (some p) (some m)
        Option.none).2.1.file ≠ PFile.none
      ∧ (LockFile.Open Platform.posix w LockFileState.init (some p) (some m)
        Option.none).2.1.mode ≠ Option.none)
    ∧ (w.openFailure = Option.none → p ∉ w.locked →
      (LockFile.Open Platform.posix
        (LockFile.Close Platform.posix
          (LockFile.Open Platform.posix w LockFileState.init (some p) (some m)
            Option.none).1
          (LockFile.Open Platform.posix w LockFileState.init (some p) (some m)
            Option.none).2.1).1
        (LockFile.Close Platform.posix
          (LockFile.Open Platform.posix w LockFileState.init (some p) (some m)
            Option.none).1
          (LockFile.Open Platform.posix w LockFileState.init (some p) (some m)
            Option.none).2.1).2
        (some p) (some m) Option.none).2.2 = Except.ok ())
    ∧ (_ValidateFileName Platform.win32 p = true → p ∈ w.locked → m ≠ "a" →
      (LockFile.Open Platform.win32 w LockFileState.init (some p) (some m)
        Option.none).2.2 = Except.ok ()
      ∧ (LockFile.Open Platform.win32 w LockFileState.init (some p) (some m)
        Option.none).2.1.file = PFile.handle false p 0)
    ∧ (_ValidateFileName Platform.win32 p = true → p ∈ w.locked →
      (LockFile.Open Platform.win32 w LockFileState.init (some p) (some "a")
        Option.none).2.2 = Except.error (Err.osError w.nativeErrMsg)
      ∧ (LockFile.Open Platform.win32 w LockFileState.init (some p) (some "a")
        Option.none).2.1.file = PFile.handle false p 0) := by
  refine ⟨?_, ?_, ?_, ?_, ?_, ?_⟩
  · intro msg hmsg
    fin_cases hm <;>
      simp +decide [LockFile.Open, LockFile.openAcquire,
        LockFile.posixNativeOpen, LockFile.modes, hv, hex, hmsg,
        World.setFile, World.pathExists, LockFileState.init, WRITEMODE,
        READMODE, APPENDMODE, WRITEANDREADMODE]
  · intro hof hlk
    fin_cases hm <;>
      simp +decide [LockFile.Open, LockFile.openAcquire,
        LockFile.posixNativeOpen, LockFile.modes, hv, hex, hof, hlk,
        World.setFile, World.pathExists, LockFileState.init, WRITEMODE,
        READMODE, APPENDMODE, WRITEANDREADMODE]
  · intro hof hnl
    fin_cases hm
    · rw [posixOpen_w_eval w _ p rfl rfl hv hnl hof]
      simp
    · rw [posixOpen_r_eval w _ p c rfl rfl hv hex hnl hof]
      simp
    · rw [posixOpen_a_eval w _ p c rfl rfl hv hex hnl hof]
      simp
    · rw [posixOpen_rw_eval w _ p c rfl rfl hv hex hnl hof]
      simp
    · rw [posixOpen_wb_eval w _ p rfl rfl hv hnl hof]
      simp
    · rw [posixOpen_rb_eval w _ p c rfl rfl hv hex hnl hof]
      simp
    · rw [posixOpen_ab_eval w _ p c rfl rfl hv hex hnl hof]
      simp
    · rw [posixOpen_rwb_eval w _ p c rfl rfl hv hex hnl hof]
      simp
  · intro hof hnl
    fin_cases hm
    · rw [posixOpen_w_eval w _ p rfl rfl hv hnl hof]
      simp only [LockFile.Close, List.erase_cons_head]
      rw [posixOpen_w_eval
        ⟨(p, []) :: w.files, w.locked, Option.none, w.nativeErrMsg⟩
        ⟨PyVal.bytes [], Option.none, PFile.none, false⟩ p rfl rfl hv hnl rfl]
    · rw [posixOpen_r_eval w _ p c rfl rfl hv hex hnl hof]
      simp only [LockFile.Close, List.erase_cons_head]
      rw [posixOpen_r_eval
        ⟨w.files, w.locked, Option.none, w.nativeErrMsg⟩
        ⟨PyVal.bytes [], Option.none, PFile.none, false⟩ p c rfl rfl hv hex
        hnl rfl]
    · rw [posixOpen_a_eval w _ p c rfl rfl hv hex hnl hof]
      simp only [LockFile.Close, List.erase_cons_head]
      rw [posixOpen_a_eval
        ⟨w.files, w.locked, Option.none, w.nativeErrMsg⟩
        ⟨PyVal.bytes [], Option.none, PFile.none, false⟩ p c rfl rfl hv hex
        hnl rfl]
    · rw [posixOpen_rw_eval w _ p c rfl rfl hv hex hnl hof]
      simp only [LockFile.Close, List.erase_cons_head]
      rw [posixOpen_rw_eval
        ⟨w.files, w.locked, Option.none, w.nativeErrMsg⟩
        ⟨PyVal.bytes [], Option.none, PFile.none, false⟩ p c rfl rfl hv hex
        hnl rfl]
    · rw [posixOpen_wb_eval w _ p rfl rfl hv hnl hof]
      simp only [LockFile.Close, List.erase_cons_head]
      rw [posixOpen_wb_eval
        ⟨(p, []) :: w.files, w.locked, Option.none, w.nativeErrMsg⟩
        ⟨PyVal.bytes [], Option.none, PFile.none, false⟩ p rfl rfl hv hnl rfl]
    · rw [posixOpen_rb_eval w _ p c rfl rfl hv hex hnl hof]
      simp only [LockFile.Close, List.erase_cons_head]
      rw [posixOpen_rb_eval
        ⟨w.files, w.locked, Option.none, w.nativeErrMsg⟩
        ⟨PyVal.bytes [], Option.none, PFile.none, false⟩ p c rfl rfl hv hex
        hnl rfl]
    · rw [posixOpen_ab_eval w _ p c rfl rfl hv hex hnl hof]
      simp only [LockFile.Close, List.erase_cons_head]
      rw [posixOpen_ab_eval
        ⟨w.files, w.locked, Option.none, w.nativeErrMsg⟩
        ⟨PyVal.bytes [], Option.none, PFile.none, false⟩ p c rfl rfl hv hex
        hnl rfl]
    · rw [posixOpen_rwb_eval w _ p c rfl rfl hv hex hnl hof]
      simp only [LockFile.Close, List.erase_cons_head]
      rw [posixOpen_rwb_eval
        ⟨w.files, w.locked, Option.none, w.nativeErrMsg⟩
        ⟨PyVal.bytes [], Option.none, PFile.none, false⟩ p c rfl rfl hv hex
        hnl rfl]
  · intro hvw hlk hma
    fin_cases hm <;>
      first
      | exact absurd rfl hma
      | simp +decide [LockFile.Open, LockFile.openAcquire, LockFile.modes,
          hvw, hlk, hex, World.pathExists, World.setFile, LockFileState.init,
          WRITEMODE, READMODE, APPENDMODE, WRITEANDREADMODE]
  · intro hvw hlk
    simp +decide [LockFile.Open, LockFile.openAcquire, LockFile.modes,
      hvw, hlk, hex, World.pathExists, World.setFile, LockFileState.init,
      APPENDMODE, LockFile.Seek, LockFile.privSeek, LockFile.haveFileOpen]

/-- Witness for C1: mode `"w"` on `"t"`, under an injected I/O failure, an
externally held lock, and a free world — and, on Windows, the held-lock
open at modes `"w"` and `"a"`. -/
theorem C1_witness :
    ((LockFile.Open Platform.posix ⟨[("t", [1])], [], some "ioerr", "l"⟩
        LockFileState.init (some "t") (some "w") Option.none).2.2
      = Except.error (Err.osError "ioerr")
     ∧ (LockFile.Open Platform.posix ⟨[("t", [1])], [], some "ioerr", "l"⟩
        LockFileState.init (some "t") (some "w") Option.none).2.1.file
      = PFile.none)
    ∧ ((LockFile.Open Platform.posix ⟨[("t", [1])], ["t"], Option.none, "l"⟩
        LockFileState.init (some "t") (some "w") Option.none).2.2
      = Except.error (Err.osError "l")
     ∧ (LockFile.Open Platform.posix ⟨[("t", [1])], ["t"], Option.none, "l"⟩
        LockFileState.init (some "t") (some "w") Option.none).2.1.file
      ≠ PFile.none)
    ∧ ((LockFile.Open Platform.posix ⟨[("t", [1])], [], Option.none, "l"⟩
        LockFileState.init (some "t") (some "w") Option.none).2.2
      = Except.ok ()
     ∧ (LockFile.Open Platform.posix ⟨[("t", [1])], [], Option.none, "l"⟩
        LockFileState.init (some "t") (some "w") Option.none).2.1.file
      ≠ PFile.none
     ∧ (LockFile.Open Platform.posix ⟨[("t", [1])], [], Option.none, "l"⟩
        LockFileState.init (some "t") (some "w") Option.none).2.1.mode
      ≠ Option.none)
    ∧ (LockFile.Open Platform.posix
        (LockFile.Close Platform.posix
          (LockFile.Open Platform.posix ⟨[("t", [1])], [], Option.none, "l"⟩
            LockFileState.init (some "t") (some "w") Option.none).1
          (LockFile.Open Platform.posix ⟨[("t", [1])], [], Option.none, "l"⟩
            LockFileState.init (some "t") (some "w") Option.none).2.1).1
        (LockFile.Close Platform.posix
          (LockFile.Open Platform.posix ⟨[("t", [1])], [], Option.none, "l"⟩
            LockFileState.init (some "t") (some "w") Option.none).1
          (LockFile.Open Platform.posix ⟨[("t", [1])], [], Option.none, "l"⟩
            LockFileState.init (some "t") (some "w") Option.none).2.1).2
        (some "t") (some "w") Option.none).2.2 = Except.ok ()
    ∧ ((LockFile.Open Platform.win32 ⟨[("t", [1])], ["t"], Option.none, "l"⟩
        LockFileState.init (some "t") (some "w") Option.none).2.2
      = Except.ok ()
     ∧ (LockFile.Open Platform.win32 ⟨[("t", [1])], ["t"], Option.none, "l"⟩
        LockFileState.init (some "t") (some "w") Option.none).2.1.file
      = PFile.handle false "t" 0)
    ∧ ((LockFile.Open Platform.win32 ⟨[("t", [1])], ["t"], Option.none, "l"⟩
        LockFileState.init (some "t") (some "a") Option.none).2.2
      = Except.error (Err.osError "l")
     ∧ (LockFile.Open Platform.win32 ⟨[("t", [1])], ["t"], Option.none, "l"⟩
        LockFileState.init (some "t") (some "a") Option.none).2.1.file
      = PFile.handle false "t" 0) := by
  have hA := C1_lock_open_behavior ⟨[("t", [1])], [], some "ioerr", "l"⟩
    "t" [1] "w" (by decide) (by decide) (by decide)
  have hB := C1_lock_open_behavior ⟨[("t", [1])], ["t"], Option.none, "l"⟩
    "t" [1] "w" (by decide) (by decide) (by decide)
  have hC := C1_lock_open_behavior ⟨[("t", [1])], [], Option.none, "l"⟩
    "t" [1] "w" (by decide) (by decide) (by decide)
  exact ⟨hA.1 "ioerr" rfl, hB.2.1 rfl (by decide), hC.2.2.1 rfl (by simp),
    hC.2.2.2.1 rfl (by simp),
    hB.2.2.2.2.1 (by decide) (by decide) (by decide),
    hB.2.2.2.2.2 (by decide) (by decide)⟩
theorem privSeek_shape (w : World) (st : LockFileState) (offset : Int)
    (sp : Nat) :
    (LockFile.privSeek w st offset sp).2.1.mode = st.mode
    ∧ ((LockFile.privSeek w st offset sp).2.1.file = PFile.none
        ↔ st.file = PFile.none) := by
  rcases st with ⟨fn, md, fl, b⟩
  rcases fl with _ | ⟨pth, m, pos, l⟩ | ⟨valid, pth, pos⟩
  · simp [LockFile.privSeek]
  · simp [LockFile.privSeek]
  · cases valid
    · simp [LockFile.privSeek]
    · simp only [LockFile.privSeek]
      split_ifs <;> simp

theorem posixSeekCurrent_shape (w : World) (st : LockFileState)
    (offset : Int) :
    (LockFile.posixSeekCurrent w st offset).2.1.mode = st.mode
    ∧ ((LockFile.posixSeekCurrent w st offset).2.1.file = PFile.none
        ↔ st.file = PFile.none) := by
  rcases st with ⟨fn, md, fl, b⟩
  rcases fl with _ | ⟨pth, m, pos, l⟩ | ⟨valid, pth, pos⟩
  · simp [LockFile.posixSeekCurrent]
  · simp only [LockFile.posixSeekCurrent]
    split_ifs <;> simp
  · simp [LockFile.posixSeekCurrent]

theorem posixSeekTo_shape (st : LockFileState) (target : Nat) :
    (posixSeekTo st target).mode = st.mode
    ∧ ((posixSeekTo st target).file = PFile.none ↔ st.file = PFile.none) := by
  rcases st with ⟨fn, md, fl, b⟩
  rcases fl with _ | ⟨pth, m, pos, l⟩ | ⟨valid, pth, pos⟩ <;>
    simp [posixSeekTo]

theorem winSeekCurrent_shape (w : World) (st : LockFileState) (offset : Int) :
    (LockFile.winSeekCurrent w st offset).2.1.mode = st.mode
    ∧ ((LockFile.winSeekCurrent w st offset).2.1.file = PFile.none
        ↔ st.file = PFile.none) := by
  unfold LockFile.winSeekCurrent
  split
  · rename_i w1 st1 e heq
    have h := privSeek_shape w st 0 1
    rw [heq] at h
    simpa using h
  · rename_i w1 st1 last heq
    have h1 := privSeek_shape w st 0 1
    rw [heq] at h1
    simp only at h1
    exact ⟨(privSeek_shape w1 st1 _ 1).1.trans h1.1,
      (privSeek_shape w1 st1 _ 1).2.trans h1.2⟩

theorem getFileSize_state (plat : Platform) (w : World) (st : LockFileState) :
    (LockFile.GetFileSize plat w st).2.1 = st := by
  unfold LockFile.GetFileSize
  split
  · rfl
  · cases plat
    · simp only
      split <;> rfl
    · simp only
      split
      · split <;> rfl
      · rfl

theorem seek_shape (plat : Platform) (w : World) (st : LockFileState)
    (offset : Int) (sp : String) :
    (LockFile.Seek plat w st offset sp).2.1.mode = st.mode
    ∧ ((LockFile.Seek plat w st offset sp).2.1.file = PFile.none
        ↔ st.file = PFile.none) := by
  unfold LockFile.Seek
  split
  · simp
  · cases plat
    · simp only
      split
      · rename_i w1 st1 e heq
        have h := privSeek_shape w st 0 1
        rw [heq] at h
        simpa using h
      · rename_i w1 st1 last heq
        have h1 := privSeek_shape w st 0 1
        rw [heq] at h1
        simp only at h1
        split_ifs <;>
          first
            | exact ⟨(privSeek_shape w1 st1 _ _).1.trans h1.1,
                (privSeek_shape w1 st1 _ _).2.trans h1.2⟩
            | exact ⟨h1.1, h1.2⟩
            | (split <;>
                first
                  | (rename_i w2 st2 e2 heq2
                     have h2 := privSeek_shape w1 st1 0 2
                     rw [heq2] at h2
                     simp only at h2
                     exact ⟨h2.1.trans h1.1, h2.2.trans h1.2⟩)
                  | (rename_i w2 st2 l2 heq2
                     have h2 := privSeek_shape w1 st1 0 2
                     rw [heq2] at h2
                     simp only at h2
                     exact ⟨(winSeekCurrent_shape w2 st2 _).1.trans
                         (h2.1.trans h1.1),
                       (winSeekCurrent_shape w2 st2 _).2.trans
                         (h2.2.trans h1.2)⟩))
    · simp only
      split_ifs
      · exact ⟨(posixSeekCurrent_shape w _ offset).1.trans
            (posixSeekTo_shape st 0).1,
          (posixSeekCurrent_shape w _ offset).2.trans
            (posixSeekTo_shape st 0).2⟩
      · exact posixSeekCurrent_shape w st offset
      · split
        · rename_i w1 st1 e heq
          have h := getFileSize_state Platform.posix w st
          rw [heq] at h
          simp only at h
          subst h
          exact ⟨rfl, Iff.rfl⟩
        · rename_i w1 st1 size heq
          have h := getFileSize_state Platform.posix w st
          rw [heq] at h
          simp only at h
          subst h
          exact ⟨(posixSeekCurrent_shape w1 _ offset).1.trans
              (posixSeekTo_shape st1 size.toNat).1,
            (posixSeekCurrent_shape w1 _ offset).2.trans
              (posixSeekTo_shape st1 size.toNat).2⟩
      · simp

theorem inv_of_shape (st st2 : LockFileState) (h1 : st2.mode = st.mode)
    (h2 : st2.file = PFile.none ↔ st.file = PFile.none)
    (hst : st.inv) : st2.inv := by
  unfold LockFileState.inv at *
  simp only [ne_eq] at hst ⊢
  simp only [h1, h2]
  exact hst

theorem write_shape (w : World) (st : LockFileState) (d : PyData) :
    (LockFile.Write w st d).2.1.mode = st.mode
    ∧ ((LockFile.Write w st d).2.1.file = PFile.none
        ↔ st.file = PFile.none) := by
  rcases st with ⟨fn, md, fl, b⟩
  rcases fl with _ | ⟨pth, m, pos, l⟩ | ⟨valid, pth, pos⟩ <;>
    (simp only [LockFile.Write]
     split_ifs <;> simp [LockFile.haveFileOpen])

theorem read_shape (w : World) (st : LockFileState) (n : Int) :
    (LockFile.Read w st n).2.1.mode = st.mode
    ∧ ((LockFile.Read w st n).2.1.file = PFile.none
        ↔ st.file = PFile.none) := by
  unfold LockFile.Read
  split_ifs <;> try exact ⟨rfl, Iff.rfl⟩
  split
  · rename_i w1 st1 e heq
    have h := getFileSize_state Platform.posix w st
    rw [heq] at h
    simp only at h
    subst h
    exact ⟨rfl, Iff.rfl⟩
  · rename_i w1 st1 size heq
    have h := getFileSize_state Platform.posix w st
    rw [heq] at h
    simp only at h
    subst h
    rcases st1 with ⟨fn, md, fl, b⟩
    rcases fl with _ | ⟨pth, m, pos, l⟩ | ⟨valid, pth, pos⟩ <;>
      (try simp) <;> (try (split_ifs <;> simp))

theorem getCursorPos_shape (plat : Platform) (w : World)
    (st : LockFileState) :
    (LockFile.GetCursorPos plat w st).2.1.mode = st.mode
    ∧ ((LockFile.GetCursorPos plat w st).2.1.file = PFile.none
        ↔ st.file = PFile.none) := by
  cases plat
  · exact privSeek_shape w st 0 1
  · rcases st with ⟨fn, md, fl, b⟩
    rcases fl with _ | ⟨pth, m, pos, l⟩ | ⟨valid, pth, pos⟩ <;>
      simp [LockFile.GetCursorPos]

theorem seek_match_unit_inv (w0 : World) (st0 : LockFileState)
    (hm : st0.mode ≠ Option.none) (hf : st0.file ≠ PFile.none) :
    (match LockFile.Seek Platform.win32 w0 st0 0 "end" with
      | (w2, st2, Except.error e) => (w2, st2, Except.error e)
      | (w2, st2, Except.ok _) => (w2, st2, Except.ok ())
      : World × LockFileState × Except Err Unit).2.1.inv := by
  split
  · rename_i w2 st2 e heq
    have hs := seek_shape Platform.win32 w0 st0 0 "end"
    rw [heq] at hs
    simp only at hs
    unfold LockFileState.inv
    simp only [ne_eq] at hf hm ⊢
    simp only [hs.1, hs.2]
    exact ⟨fun _ => hf, fun _ => hm⟩
  · rename_i w2 st2 l2 heq
    have hs := seek_shape Platform.win32 w0 st0 0 "end"
    rw [heq] at hs
    simp only at hs
    unfold LockFileState.inv
    simp only [ne_eq] at hf hm ⊢
    simp only [hs.1, hs.2]
    exact ⟨fun _ => hf, fun _ => hm⟩

theorem posixNativeOpen_inv (w : World) (st : LockFileState) (fn : String)
    (pymode : String) (hm : st.mode ≠ Option.none) :
    (LockFile.posixNativeOpen w st fn pymode).2.1.inv
    ∨ ((LockFile.posixNativeOpen w st fn pymode).2.1.mode ≠ Option.none
       ∧ (LockFile.posixNativeOpen w st fn pymode).2.1.file = PFile.none
       ∧ ∃ e, (LockFile.posixNativeOpen w st fn pymode).2.2
          = Except.error e) := by
  unfold LockFile.posixNativeOpen
  split
  · by_cases hf : st.file = PFile.none
    · right
      exact ⟨hm, hf, ⟨_, rfl⟩⟩
    · left
      unfold LockFileState.inv
      exact ⟨fun _ => hf, fun _ => hm⟩
  · simp only []
    split
    · by_cases hf : st.file = PFile.none
      · right
        exact ⟨hm, hf, ⟨_, rfl⟩⟩
      · left
        unfold LockFileState.inv
        exact ⟨fun _ => hf, fun _ => hm⟩
    · rename_i w1 pos heq
      split_ifs
      · left
        unfold LockFileState.inv
        simp [hm]
      · left
        unfold LockFileState.inv
        simp

theorem openAcquire_inv (plat : Platform) (w : World) (st : LockFileState)
    (fn m : String) (modeVal : PyVal) (disp : Nat) (enc : Option PyVal) :
    (LockFile.openAcquire plat w st fn m modeVal disp enc).2.1.inv
    ∨ ((LockFile.openAcquire plat w st fn m modeVal disp enc).2.1.mode
        ≠ Option.none
       ∧ (LockFile.openAcquire plat w st fn m modeVal disp enc).2.1.file
        = PFile.none
       ∧ ∃ e, (LockFile.openAcquire plat w st fn m modeVal disp enc).2.2
          = Except.error e) := by
  cases plat
  · -- win32: the handle is always bound and the mode always set
    unfold LockFile.openAcquire
    simp only []
    split
    · left
      apply seek_match_unit_inv
      · split_ifs <;> (try split) <;> simp
      · split_ifs <;> (try split) <;> simp
    · left
      unfold LockFileState.inv
      constructor
      · intro _
        split_ifs <;> (try split) <;> simp
      · intro _
        split_ifs <;> (try split) <;> simp
  · -- posix
    unfold LockFile.openAcquire
    simp only []
    split
    · by_cases hf : st.file = PFile.none
      · right
        refine ⟨by simp, by simpa using hf, ⟨_, rfl⟩⟩
      · left
        unfold LockFileState.inv
        refine ⟨fun _ => by simpa using hf, fun _ => by simp⟩
    · exact posixNativeOpen_inv _ _ _ _ (by simp)

set_option maxHeartbeats 2000000 in
/-- C9 (amended): the invariant "`accessMode` is non-null iff
`nativeResource` is non-null" holds for the initial handle and is preserved
by `Close`, `Seek`, `Write`, `Read`, `GetFileSize` and `GetCursorPos`; a
call to `Open` either preserves it or fails leaving `accessMode` set while
`nativeResource` is null — never the reverse — because the POSIX branch
assigns `self._mode` before the encoding check and the native open (see the
counterexample for a concrete failing `Open`). -/
theorem C9_invariant (plat : Platform) (w : World) (st : LockFileState)
    (fn md2 : Option String) (enc : Option PyVal) (hst : st.inv) :
    ((LockFile.Open plat w st fn md2 enc).2.1.inv
      ∨ ((LockFile.Open plat w st fn md2 enc).2.1.mode ≠ Option.none
         ∧ (LockFile.Open plat w st fn md2 enc).2.1.file = PFile.none
         ∧ ∃ e, (LockFile.Open plat w st fn md2 enc).2.2 = Except.error e))
    ∧ (LockFile.Close plat w st).2.inv
    ∧ LockFileState.init.inv
    ∧ (∀ (off : Int) (sp : String), (LockFile.Seek plat w st off sp).2.1.inv)
    ∧ (∀ d, (LockFile.Write w st d).2.1.inv)
    ∧ (∀ n, (LockFile.Read w st n).2.1.inv)
    ∧ (LockFile.GetFileSize plat w st).2.1.inv
    ∧ (LockFile.GetCursorPos plat w st).2.1.inv := by
  refine ⟨?_, ?_, ?_, ?_, ?_, ?_, ?_, ?_⟩
  · rcases st with ⟨sfn, smd, sfl, sb⟩
    unfold LockFile.Open
    cases plat <;>
      rcases sfl with _ | ⟨pth, mm, pos, l⟩ | ⟨valid, pth, pos⟩ <;>
      simp only [] <;>
      repeat'
        first
          | exact openAcquire_inv _ _ _ _ _ _ _ _
          | (left
             simpa [LockFileState.inv] using hst)
          | split
  · unfold LockFile.Close
    simp [LockFileState.inv]
  · simp [LockFileState.init, LockFileState.inv]
  · intro off sp
    exact inv_of_shape st _ (seek_shape plat w st off sp).1
      (seek_shape plat w st off sp).2 hst
  · intro d
    exact inv_of_shape st _ (write_shape w st d).1 (write_shape w st d).2 hst
  · intro n
    exact inv_of_shape st _ (read_shape w st n).1 (read_shape w st n).2 hst
  · rw [getFileSize_state]
    exact hst
  · exact inv_of_shape st _ (getCursorPos_shape plat w st).1
      (getCursorPos_shape plat w st).2 hst

/-- Witness for C9: a concrete open read handle; `Close`, `Seek` and `Open`
all maintain the invariant there. -/
theorem C9_witness :
    (LockFile.Close Platform.posix ⟨[("t", [1])], ["t"], Option.none, "e"⟩
      ⟨PyVal.str "t", some (PyVal.str "r"), PFile.iobase "t" "r" 0 true,
       false⟩).2.inv
    ∧ LockFileState.init.inv
    ∧ (LockFile.Seek Platform.posix ⟨[("t", [1])], ["t"], Option.none, "e"⟩
        ⟨PyVal.str "t", some (PyVal.str "r"), PFile.iobase "t" "r" 0 true,
         false⟩ 3 "current").2.1.inv := by
  have h := C9_invariant Platform.posix ⟨[("t", [1])], ["t"], Option.none, "e"⟩
    ⟨PyVal.str "t", some (PyVal.str "r"), PFile.iobase "t" "r" 0 true, false⟩
    (some "t") (some "w") Option.none (by simp [LockFileState.inv])
  exact ⟨h.2.1, h.2.2.1, h.2.2.2.1 3 "current"⟩
